import Mathlib

/-!
Verification of the simulation core of the repository (three JavaScript
variants: a hard-wall snake in script.js, a wrap-around snake with
power-ups in src/unnamed/part_000, and an on-rails shooter in game.js).

Modelling conventions, shared by all variants:

* A logical position is its pair of grid-plane coordinates (x, z), as
  rational numbers.  The y coordinate of every logical entity is the
  constant GRID_SIZE / 2 and is perturbed only by the per-frame render
  "bobbing" animation, which the spec places out of scope, so it is
  omitted.  Coordinates are rational rather than integral because the
  wrap-around variant moves the head to the half-integral coordinate
  plusminus (halfPlane - GRID_SIZE * 0.5) when it crosses an edge.
* Every comparison `a.distanceTo(b) < t` in the source (with t a
  non-negative threshold) is modelled as `distSq a b < t ^ 2`, which is
  equivalent because both sides of the original comparison are
  non-negative; this keeps every predicate decidable without square
  roots.
* Calls to Math.random() are modelled by explicit input streams: each
  function that draws random values takes the drawn values as an
  argument.  Loops that the source runs without a bound (the fallback
  placement loop of script.js and the food top-up loop of part_000) are
  modelled with an explicit fuel argument counting observed iterations;
  returning `none` at fuel 0 means the loop was still running after
  that many iterations.
* DOM, audio, camera and mesh bookkeeping are presentation-layer
  effects (spec section 1) and have no logical state; they are omitted.
-/

/-- A logical grid-plane position or direction vector: the x and z
coordinates of the corresponding THREE.Vector3 (y is presentation). -/
structure Vec where
  x : ℚ
  z : ℚ
deriving DecidableEq, Repr

/-- Componentwise vector addition, as THREE.Vector3.add on (x, z). -/
def Vec.add (a b : Vec) : Vec := ⟨a.x + b.x, a.z + b.z⟩

/-- Squared Euclidean distance on the grid plane.  The source compares
`a.distanceTo(b) < t`; we compare `distSq a b < t ^ 2` instead. -/
def Vec.distSq (a b : Vec) : ℚ := (a.x - b.x) ^ 2 + (a.z - b.z) ^ 2

/-- Negation of a vector (used to state the 180-degree-reversal rule). -/
def Vec.neg (a : Vec) : Vec := ⟨-a.x, -a.z⟩

/-- The four axis-aligned unit direction vectors of the 4-way variant. -/
def unitDirs : List Vec := [⟨1, 0⟩, ⟨-1, 0⟩, ⟨0, 1⟩, ⟨0, -1⟩]

namespace Script

/-! Embedding of the hard-wall snake variant, src/script.js.
Constants: GRID_SIZE = 1, PLANE_SIZE = 30 (so halfPlane = 15),
INITIAL_SNAKE_LENGTH = 3. -/

/-- Half the plane size in world units: (PLANE_SIZE / 2) * GRID_SIZE. -/
def halfPlane : ℚ := 15

/-- The mutable module-level state of script.js that the simulation
reads and writes (scene, camera, renderer, UI nodes are presentation).
The snake list holds segment positions, index 0 the head. -/
structure GState where
  snake : List Vec
  food : Vec
  direction : Vec
  nextDirection : Vec
  score : ℕ
  gameRunning : Bool
  gameOver : Bool
deriving DecidableEq, Repr

/-- The 180-degree guard of moveSnake, script.js lines 234-237: the
buffered direction is copied into the current direction unless it
exactly reverses a non-zero component of the current one. -/
def turnAllowed (d nd : Vec) : Bool :=
  !(decide (d.x = -nd.x) && !(decide (d.x = 0))) &&
  !(decide (d.z = -nd.z) && !(decide (d.z = 0)))

/-- Boundary test of script.js lines 246-247 (hard-wall policy): the
candidate head position is out of bounds when a coordinate reaches
halfPlane or drops below -halfPlane. -/
def outOfBounds (p : Vec) : Bool :=
  decide (halfPlane ≤ p.x) || decide (p.x < -halfPlane) ||
  decide (halfPlane ≤ p.z) || decide (p.z < -halfPlane)

/-- Self-collision test of script.js lines 253-258: the candidate head
is within GRID_SIZE * 0.5 of some non-head segment. -/
def selfHit (newHeadPos : Vec) (rest : List Vec) : Bool :=
  rest.any (fun seg => decide (newHeadPos.distSq seg < (1 / 2) ^ 2))

/-- Food pickup test of script.js line 262: candidate head within
GRID_SIZE * 0.8 of the single food item. -/
def foodHit (newHeadPos food : Vec) : Bool :=
  decide (newHeadPos.distSq food < (4 / 5) ^ 2)

/-- The function triggerGameOver, script.js lines 365-370 (the UI
writes are presentation). -/
def triggerGameOver (s : GState) : GState :=
  { s with gameRunning := false, gameOver := true }

/-- One logic tick: the function moveSnake of script.js lines 229-292.
`newFood` abstracts the position produced by the spawnFood call that
runs when the food is eaten (spawnFood itself, with its random draws,
is modelled separately below). -/
def moveSnake (newFood : Vec) (s : GState) : GState :=
  if !s.gameRunning || s.gameOver then s
  else
    match s.snake with
    | [] => s
    | head :: rest =>
      let dir := if turnAllowed s.direction s.nextDirection then s.nextDirection
                 else s.direction
      let s1 : GState := { s with direction := dir }
      let newHeadPos := head.add dir
      if outOfBounds newHeadPos then triggerGameOver s1
      else if selfHit newHeadPos rest then triggerGameOver s1
      else
        let ate := foodHit newHeadPos s1.food
        let s2 : GState :=
          if ate then { s1 with score := s1.score + 1, food := newFood } else s1
        let body := newHeadPos :: (head :: rest).dropLast
        let body :=
          if ate then body ++ [(head :: rest).getLast (List.cons_ne_nil head rest)]
          else body
        { s2 with snake := body }

end Script

namespace Script

/-- Characterization of a tick with no pending turn, no collision and no
food pickup: only the body shifts (script.js lines 277-285). -/
theorem moveSnake_plain (nf : Vec) (s : GState) (head : Vec) (rest : List Vec)
    (hsn : s.snake = head :: rest)
    (hrun : s.gameRunning = true) (hover : s.gameOver = false)
    (hnoturn : s.nextDirection = s.direction)
    (hwall : outOfBounds (head.add s.direction) = false)
    (hself : selfHit (head.add s.direction) rest = false)
    (hfood : foodHit (head.add s.direction) s.food = false) :
    moveSnake nf s =
      { s with snake := (head.add s.direction) :: (head :: rest).dropLast } := by
  simp only [moveSnake, hsn, hrun, hover, hnoturn, ite_self, hwall, hself, hfood,
    Bool.not_true, Bool.false_or, Bool.false_eq_true, if_false, if_true]

end Script

/-- C1: for every tick of the snake motion engine in which no turn is
pending (the buffered direction equals the current one) and no collision
occurs (no wall hit, no self hit, and no food pickup, which script.js
labels food collision), the body length is unchanged, the new head is
the old head plus the current direction vector, and every later segment
occupies the position its predecessor held before the tick. -/
theorem c1_queue_shift (nf : Vec) (s : Script.GState) (head : Vec) (rest : List Vec)
    (hsn : s.snake = head :: rest)
    (hrun : s.gameRunning = true) (hover : s.gameOver = false)
    (hnoturn : s.nextDirection = s.direction)
    (hwall : Script.outOfBounds (head.add s.direction) = false)
    (hself : Script.selfHit (head.add s.direction) rest = false)
    (hfood : Script.foodHit (head.add s.direction) s.food = false) :
    (Script.moveSnake nf s).snake.length = s.snake.length ∧
    (Script.moveSnake nf s).snake.head? = some (head.add s.direction) ∧
    ∀ i : ℕ, i + 1 < s.snake.length →
      (Script.moveSnake nf s).snake[i + 1]? = s.snake[i]? := by
  have hmv := Script.moveSnake_plain nf s head rest hsn hrun hover hnoturn hwall hself hfood
  rw [hmv]
  refine ⟨?_, rfl, ?_⟩
  · simp [hsn]
  · intro i hi
    rw [hsn] at hi ⊢
    simp only [List.getElem?_cons_succ, List.dropLast_eq_take]
    rw [List.getElem?_take_of_lt]
    simp only [List.length_cons] at hi ⊢
    omega

/-- The spec section 8 scenario state for script.js: body at positions
(2,0), (1,0), (0,0) heading +x, the single food far away at (10,10). -/
def Script.s0 : Script.GState :=
  ⟨[⟨2, 0⟩, ⟨1, 0⟩, ⟨0, 0⟩], ⟨10, 10⟩, ⟨1, 0⟩, ⟨1, 0⟩, 0, true, false⟩

/-- Closed witness for c1_queue_shift: after one plain tick of the spec
scenario the body still has 3 segments and segment 1 sits where the old
head was. -/
theorem c1_queue_shift_witness :
    (Script.moveSnake ⟨9, 9⟩ Script.s0).snake.length = 3 ∧
    (Script.moveSnake ⟨9, 9⟩ Script.s0).snake[1]? = some ⟨2, 0⟩ :=
  have h := c1_queue_shift ⟨9, 9⟩ Script.s0 ⟨2, 0⟩ [⟨1, 0⟩, ⟨0, 0⟩]
    rfl rfl rfl rfl (by with_unfolding_all decide) (by with_unfolding_all decide)
    (by with_unfolding_all decide)
  ⟨h.1, by rw [h.2.2 0 (by decide)]; rfl⟩

namespace Script

/-- The direction a tick actually moves along: the buffered direction if
the 180-degree guard admits it, the old direction otherwise (script.js
lines 232-237). -/
def effDir (s : GState) : Vec :=
  if turnAllowed s.direction s.nextDirection then s.nextDirection else s.direction

/-- Characterization of a colliding tick: when the candidate head is out
of bounds or hits the body, moveSnake only runs triggerGameOver (the
turn resolution having already been applied to the direction). -/
theorem moveSnake_collision (nf : Vec) (s : GState) (head : Vec) (rest : List Vec)
    (hsn : s.snake = head :: rest)
    (hrun : s.gameRunning = true) (hover : s.gameOver = false)
    (hcol : outOfBounds (head.add (effDir s)) = true ∨
            selfHit (head.add (effDir s)) rest = true) :
    moveSnake nf s = triggerGameOver { s with direction := effDir s } := by
  have hdir : (if turnAllowed s.direction s.nextDirection then s.nextDirection
      else s.direction) = effDir s := rfl
  rcases hcol with hwall | hself
  · simp only [moveSnake, hsn, hrun, hover, hdir, hwall, Bool.not_true, Bool.false_or,
      Bool.false_eq_true, if_false, if_true]
  · cases hwall : outOfBounds (head.add (effDir s)) <;>
      simp only [moveSnake, hsn, hrun, hover, hdir, hwall, hself, Bool.not_true,
        Bool.false_or, Bool.false_eq_true, if_false, if_true]

end Script

/-- C2: a tick whose candidate head position triggers a terminal
collision (a boundary hit under the hard-wall policy, or a position
within the self-collision threshold of a non-head segment) performs
the Running-to-GameOver transition and mutates nothing else: the food,
the score and every segment position are left untouched. -/
theorem c2_collision_freezes_state (nf : Vec) (s : Script.GState) (head : Vec)
    (rest : List Vec)
    (hsn : s.snake = head :: rest)
    (hrun : s.gameRunning = true) (hover : s.gameOver = false)
    (hcol : Script.outOfBounds (head.add (Script.effDir s)) = true ∨
            Script.selfHit (head.add (Script.effDir s)) rest = true) :
    (Script.moveSnake nf s).gameRunning = false ∧
    (Script.moveSnake nf s).gameOver = true ∧
    (Script.moveSnake nf s).snake = s.snake ∧
    (Script.moveSnake nf s).food = s.food ∧
    (Script.moveSnake nf s).score = s.score := by
  rw [Script.moveSnake_collision nf s head rest hsn hrun hover hcol]
  exact ⟨rfl, rfl, rfl, rfl, rfl⟩

/-- The spec section 8 collision scenario for script.js: heading +x with
the body occupying (1,0) as its second segment, so the candidate head
lands on it. -/
def Script.s1 : Script.GState :=
  ⟨[⟨0, 0⟩, ⟨1, 0⟩], ⟨10, 10⟩, ⟨1, 0⟩, ⟨1, 0⟩, 5, true, false⟩

/-- Closed witness for c2_collision_freezes_state on the spec collision
scenario: the state becomes GameOver with body and score untouched. -/
theorem c2_collision_freezes_state_witness :
    (Script.moveSnake ⟨9, 9⟩ Script.s1).gameRunning = false ∧
    (Script.moveSnake ⟨9, 9⟩ Script.s1).gameOver = true ∧
    (Script.moveSnake ⟨9, 9⟩ Script.s1).snake = Script.s1.snake ∧
    (Script.moveSnake ⟨9, 9⟩ Script.s1).food = Script.s1.food ∧
    (Script.moveSnake ⟨9, 9⟩ Script.s1).score = Script.s1.score :=
  c2_collision_freezes_state ⟨9, 9⟩ Script.s1 ⟨0, 0⟩ [⟨1, 0⟩] rfl rfl rfl
    (Or.inr (by with_unfolding_all decide))

namespace Script

/-- Keyboard inputs that script.js handleKeyDown distinguishes: the four
turn keys (arrow or wasd), the spacebar, and anything else. -/
inductive Key where
  | up
  | down
  | left
  | right
  | space
  | other
deriving DecidableEq, Repr

/-- The direction vector a turn key requests (script.js lines 442-467). -/
def keyVec : Key → Option Vec
  | Key.up => some ⟨0, -1⟩
  | Key.down => some ⟨0, 1⟩
  | Key.left => some ⟨-1, 0⟩
  | Key.right => some ⟨1, 0⟩
  | _ => none

/-- The function startGame, script.js lines 219-227 (lastUpdateTime and
the overlay toggles are tick-scheduling and presentation). -/
def startGame (s : GState) : GState :=
  if !s.gameRunning then { s with gameRunning := true, gameOver := false } else s

/-- The initial three-segment body of script.js lines 204-209: positions
((INITIAL_SNAKE_LENGTH - 1 - i) * GRID_SIZE, 0) for i = 0, 1, 2. -/
def initialSnake : List Vec := [⟨2, 0⟩, ⟨1, 0⟩, ⟨0, 0⟩]

/-- The function resetGame, script.js lines 177-217: entities cleared and
re-seeded, score zeroed, both state flags cleared (Idle), directions
reset; `nf` abstracts the position the spawnFood call places the initial
food at. -/
def resetGame (nf : Vec) (_s : GState) : GState :=
  { snake := initialSnake
    food := nf
    direction := ⟨1, 0⟩
    nextDirection := ⟨1, 0⟩
    score := 0
    gameRunning := false
    gameOver := false }

/-- The function handleKeyDown, script.js lines 426-468: spacebar starts
from Idle and resets from GameOver; a turn key buffers its direction
into nextDirection unless the matching component of the current
direction is non-zero (the no-instant-backward guard). `nf` abstracts
the food position spawned if a reset runs. -/
def handleKeyDown (k : Key) (nf : Vec) (s : GState) : GState :=
  if !s.gameRunning && !s.gameOver && k == Key.space then startGame s
  else if s.gameOver && k == Key.space then resetGame nf s
  else
    match k with
    | Key.up => if s.direction.z = 0 then { s with nextDirection := ⟨0, -1⟩ } else s
    | Key.down => if s.direction.z = 0 then { s with nextDirection := ⟨0, 1⟩ } else s
    | Key.left => if s.direction.x = 0 then { s with nextDirection := ⟨-1, 0⟩ } else s
    | Key.right => if s.direction.x = 0 then { s with nextDirection := ⟨1, 0⟩ } else s
    | _ => s

/-- The direction field after a tick never differs from the resolved
effective direction when the game is running on a non-empty body. -/
theorem moveSnake_direction_run (nf : Vec) (s : GState) (head : Vec) (rest : List Vec)
    (hsn : s.snake = head :: rest)
    (hrun : s.gameRunning = true) (hover : s.gameOver = false) :
    (moveSnake nf s).direction = effDir s := by
  have hdir : (if turnAllowed s.direction s.nextDirection then s.nextDirection
      else s.direction) = effDir s := rfl
  simp only [moveSnake, hsn, hrun, hover, hdir, Bool.not_true, Bool.false_or,
    Bool.false_eq_true, if_false]
  split
  · rfl
  · split
    · rfl
    · split <;> rfl

/-- The 180-degree guard admits every non-reversing pair of axis-aligned
unit directions. -/
theorem turnAllowed_of_unit (d nd : Vec) (hd : d ∈ unitDirs) (hnd : nd ∈ unitDirs)
    (hrev : nd ≠ Vec.neg d) : turnAllowed d nd = true := by
  fin_cases hd <;> fin_cases hnd <;>
    first
      | (with_unfolding_all decide)
      | (exact absurd (by with_unfolding_all decide) hrev)

end Script

/-- C6: a turn request that exactly reverses the current heading is
rejected by the input handler, so the pending buffer and hence the
direction after the next tick are unchanged; a non-reversing request
pending at a tick becomes the direction of that tick. -/
theorem c6_turn_rule :
    (∀ (k : Script.Key) (nf nf2 : Vec) (s : Script.GState),
        Script.keyVec k = some (Vec.neg s.direction) →
        Script.handleKeyDown k nf2 s = s ∧
        (s.nextDirection = s.direction →
          (Script.moveSnake nf (Script.handleKeyDown k nf2 s)).direction = s.direction)) ∧
    (∀ (nf : Vec) (s : Script.GState) (head : Vec) (rest : List Vec),
        s.snake = head :: rest →
        s.gameRunning = true → s.gameOver = false →
        s.direction ∈ unitDirs → s.nextDirection ∈ unitDirs →
        s.nextDirection ≠ Vec.neg s.direction →
        (Script.moveSnake nf s).direction = s.nextDirection) := by
  constructor
  · intro k nf nf2 s hreq
    have hsame : Script.handleKeyDown k nf2 s = s := by
      have hx : Vec.neg s.direction = Vec.neg s.direction := rfl
      cases k <;> simp only [Script.keyVec, Option.some.injEq, reduceCtorEq] at hreq
      case up =>
        have hz : s.direction.z = 1 := by
          have := congrArg Vec.z hreq
          simp only [Vec.neg] at this
          linarith [this]
        simp [Script.handleKeyDown, hz]
      case down =>
        have hz : s.direction.z = -1 := by
          have := congrArg Vec.z hreq
          simp only [Vec.neg] at this
          linarith [this]
        simp [Script.handleKeyDown, hz]
      case left =>
        have hx1 : s.direction.x = 1 := by
          have := congrArg Vec.x hreq
          simp only [Vec.neg] at this
          linarith [this]
        simp [Script.handleKeyDown, hx1]
      case right =>
        have hx1 : s.direction.x = -1 := by
          have := congrArg Vec.x hreq
          simp only [Vec.neg] at this
          linarith [this]
        simp [Script.handleKeyDown, hx1]
    refine ⟨hsame, fun hnopend => ?_⟩
    rw [hsame]
    by_cases hrun : s.gameRunning = true
    · by_cases hover : s.gameOver = false
      · match hsn : s.snake with
        | [] => simp [Script.moveSnake, hsn, hrun, hover]
        | hd :: tl =>
          rw [Script.moveSnake_direction_run nf s hd tl hsn hrun hover]
          simp [Script.effDir, hnopend]
      · have : s.gameOver = true := by revert hover; cases s.gameOver <;> simp
        simp [Script.moveSnake, this]
    · have : s.gameRunning = false := by revert hrun; cases s.gameRunning <;> simp
      simp [Script.moveSnake, this]
  · intro nf s head rest hsn hrun hover hd hnd hrev
    rw [Script.moveSnake_direction_run nf s head rest hsn hrun hover]
    simp [Script.effDir, Script.turnAllowed_of_unit s.direction s.nextDirection hd hnd hrev]

/-- The spec scenario state with an upward turn already buffered. -/
def Script.sTurn : Script.GState :=
  ⟨[⟨2, 0⟩, ⟨1, 0⟩, ⟨0, 0⟩], ⟨10, 10⟩, ⟨1, 0⟩, ⟨0, -1⟩, 0, true, false⟩

/-- Closed witness for c6_turn_rule: pressing left while heading +x is
dropped, and a buffered upward turn is honored by the next tick. -/
theorem c6_turn_rule_witness :
    Script.handleKeyDown Script.Key.left ⟨9, 9⟩ Script.s0 = Script.s0 ∧
    (Script.moveSnake ⟨9, 9⟩ Script.sTurn).direction = ⟨0, -1⟩ := by
  constructor
  · exact (c6_turn_rule.1 Script.Key.left ⟨9, 9⟩ ⟨9, 9⟩ Script.s0
      (by with_unfolding_all decide)).1
  · exact c6_turn_rule.2 ⟨9, 9⟩ Script.sTurn ⟨2, 0⟩ [⟨1, 0⟩, ⟨0, 0⟩] rfl rfl rfl
      (by with_unfolding_all decide) (by with_unfolding_all decide)
      (by with_unfolding_all decide)

namespace Script

/-- The function getRandomGridPosition, script.js lines 351-356: each
axis is floor(random() * (2 * maxCoord + 1)) - maxCoord with
maxCoord = floor(PLANE_SIZE / 2) - 1 = 14.  The floor result is the
random input, reduced mod 29 to its range 0..28. -/
def getRandomGridPosition (a b : ℕ) : Vec :=
  ⟨((a % 29 : ℕ) : ℚ) - 14, ((b % 29 : ℕ) : ℚ) - 14⟩

/-- Acceptance test of the primary spawnFood loop, script.js lines
316-330: at least GRID_SIZE * 0.5 away from every snake segment and
inside the plane (the same four inequalities as the wall check). -/
def validFoodPos (snake : List Vec) (p : Vec) : Bool :=
  snake.all (fun seg => !decide (seg.distSq p < (1 / 2) ^ 2)) && !outOfBounds p

/-- Acceptance test of the degraded fallback loop, script.js lines
337-343: only the snake-occupancy recheck; no bounds, no clearance. -/
def fallbackValid (snake : List Vec) (p : Vec) : Bool :=
  snake.all (fun seg => !decide (seg.distSq p < (1 / 2) ^ 2))

/-- The fallback while-loop of spawnFood, script.js lines 335-344,
observed for `fuel` iterations; `draws i` is the pair of random floor
results of iteration i.  The source loop has no iteration bound, so
`none` means it was still running after `fuel` iterations. -/
def fallbackLoop (snake : List Vec) (draws : ℕ → ℕ × ℕ) : ℕ → Option Vec
  | 0 => none
  | fuel + 1 =>
    let p := getRandomGridPosition (draws 0).1 (draws 0).2
    if fallbackValid snake p then some p
    else fallbackLoop snake (fun i => draws (i + 1)) fuel

/-- Outcome of spawnFood: the position chosen (none only when the
fallback loop outran its observation bound) and whether the degraded
fallback path ran, which the source flags with console.warn (line 334). -/
structure SpawnResult where
  pos : Option Vec
  degraded : Bool
deriving DecidableEq, Repr

/-- The function spawnFood, script.js lines 294-349: up to 50 primary
attempts, each drawing a candidate near a random plant and snapping it
to the grid (`prim i` is the snapped candidate of attempt i, the plant
choice, angle and radius being its random inputs), then the unbounded
degraded fallback loop. -/
def spawnFood (snake : List Vec) (prim : ℕ → Vec) (draws : ℕ → ℕ × ℕ)
    (fuel : ℕ) : SpawnResult :=
  match ((List.range 50).map prim).find? (validFoodPos snake) with
  | some p => ⟨some p, false⟩
  | none => ⟨fallbackLoop snake draws fuel, true⟩

/-- The 29 x 29 grid of every position getRandomGridPosition can return,
as a snake occupying all of them. -/
def snakeFull : List Vec :=
  (List.range 29).flatMap (fun a =>
    (List.range 29).map (fun b => ⟨((a : ℚ)) - 14, ((b : ℚ)) - 14⟩))

/-- Every random draw lands on the full snake. -/
theorem getRandomGridPosition_mem_snakeFull (a b : ℕ) :
    getRandomGridPosition a b ∈ snakeFull := by
  have ha : a % 29 < 29 := Nat.mod_lt a (by norm_num)
  have hb : b % 29 < 29 := Nat.mod_lt b (by norm_num)
  have hin : getRandomGridPosition a b ∈ (List.range 29).map
      (fun c : ℕ => (⟨((a % 29 : ℕ) : ℚ) - 14, ((c : ℚ)) - 14⟩ : Vec)) :=
    List.mem_map.mpr ⟨b % 29, List.mem_range.mpr hb, rfl⟩
  exact List.mem_flatMap.mpr ⟨a % 29, List.mem_range.mpr ha, hin⟩

/-- A position lying on the snake fails the fallback occupancy check. -/
theorem fallbackValid_eq_false_of_mem (snake : List Vec) (p : Vec) (hp : p ∈ snake) :
    fallbackValid snake p = false := by
  rw [fallbackValid, List.all_eq_false]
  refine ⟨p, hp, ?_⟩
  have h0 : p.distSq p < (1 / 2) ^ 2 := by
    rw [Vec.distSq]
    simp only [sub_self]
    norm_num
  rw [decide_eq_true h0]
  simp

/-- C5 divergence witness at the failing input: with the snake occupying
every cell the random draw can produce and every primary candidate on
the snake, spawnFood has not returned after any number of fallback
iterations, for any random stream: the while-loop of script.js lines
335-344 never exits even though line 297 introduces maxAttempts to
prevent an infinite loop when space is tight. -/
theorem c5_spawn_divergence (fuel : ℕ) (draws : ℕ → ℕ × ℕ) :
    spawnFood snakeFull (fun _ => ⟨1, 0⟩) draws fuel =
      SpawnResult.mk none true := by
  have hmem : (⟨1, 0⟩ : Vec) ∈ snakeFull := by
    have h := getRandomGridPosition_mem_snakeFull 15 14
    have he : getRandomGridPosition 15 14 = ⟨1, 0⟩ := by
      rw [getRandomGridPosition]
      with_unfolding_all decide
    rwa [he] at h
  have hinvalid : validFoodPos snakeFull ⟨1, 0⟩ = false := by
    rw [validFoodPos]
    have := fallbackValid_eq_false_of_mem snakeFull ⟨1, 0⟩ hmem
    rw [fallbackValid] at this
    rw [this]
    rfl
  have hprim : ((List.range 50).map (fun _ => (⟨1, 0⟩ : Vec))).find?
      (validFoodPos snakeFull) = none := by
    rw [List.find?_eq_none]
    intro x hx
    rcases List.mem_map.mp hx with ⟨i, _, hi⟩
    rw [← hi, hinvalid]
    simp
  have hfall : ∀ (f : ℕ) (d : ℕ → ℕ × ℕ), fallbackLoop snakeFull d f = none := by
    intro f
    induction f with
    | zero => intro d; rfl
    | succ n ih =>
      intro d
      rw [fallbackLoop]
      have hbad := fallbackValid_eq_false_of_mem snakeFull
        (getRandomGridPosition (d 0).1 (d 0).2)
        (getRandomGridPosition_mem_snakeFull (d 0).1 (d 0).2)
      simp only [hbad, Bool.false_eq_true, if_false]
      exact ih (fun i => d (i + 1))
  rw [spawnFood, hprim, hfall fuel draws]

end Script

namespace Snake3

/-! Embedding of the wrap-around snake variant with power-ups,
src/unnamed/part_000.  Constants: GRID_SIZE = 1, PLANE_SIZE = 100
(halfPlane = 50), SNAKE_SPEED = 8, BASE_SNAKE_SIZE_MULTIPLIER = 0.8,
MAX_FOOD_COUNT = 20, POWERUP_DURATION = 10000, SPEED_UP_FACTOR = 1.5,
SLOW_DOWN_FACTOR = 0.5, SHRINK_FACTOR = 0.5. -/

/-- Half the plane size in world units. -/
def halfPlane : ℚ := 50

/-- The base updates-per-second constant SNAKE_SPEED. -/
def SNAKE_SPEED : ℚ := 8

/-- The constant BASE_SNAKE_SIZE_MULTIPLIER = 0.8. -/
def BASE_SNAKE_SIZE_MULTIPLIER : ℚ := 4 / 5

/-- The configured food cap MAX_FOOD_COUNT. -/
def MAX_FOOD_COUNT : ℕ := 20

/-- The constant POWERUP_DURATION in milliseconds. -/
def POWERUP_DURATION : ℚ := 10000

/-- The constant SPEED_UP_FACTOR = 1.5. -/
def SPEED_UP_FACTOR : ℚ := 3 / 2

/-- The constant SLOW_DOWN_FACTOR = 0.5. -/
def SLOW_DOWN_FACTOR : ℚ := 1 / 2

/-- The constant SHRINK_FACTOR = 0.5. -/
def SHRINK_FACTOR : ℚ := 1 / 2

/-- The closed set of power-up types of part_000 lines 23-25. -/
inductive PUType where
  | shrink
  | speedup
  | slowdown
deriving DecidableEq, Repr

/-- A relative turn request, the value of the turnRequested slot. -/
inductive Turn where
  | left
  | right
deriving DecidableEq, Repr

/-- The mutable module-level state of part_000 that the simulation
reads and writes.  sceneryObjects holds the group positions created
once at init by createScenery; isPositionValid reads them.  Camera,
audio and DOM state are presentation. -/
structure BState where
  snake : List Vec
  foods : List Vec
  powerUps : List (Vec × PUType)
  sceneryObjects : List Vec
  direction : Vec
  turnRequested : Option Turn
  activePowerUp : Option PUType
  powerUpExpiryTime : ℚ
  currentSnakeSpeed : ℚ
  currentSnakeSizeMultiplier : ℚ
  updateInterval : ℚ
  score : ℕ
  gameRunning : Bool
  gameOver : Bool
deriving DecidableEq, Repr

/-- Math.sign on a rational. -/
def sign (q : ℚ) : ℚ := if 0 < q then 1 else if q < 0 then -1 else 0

/-- The relative-turn resolution of moveSnake, part_000 line 258: a left
or right turn is computed perpendicular to the non-zero component of
the current direction; newDir stays (0,0) if both components are 0. -/
def turnDir (d : Vec) (t : Turn) : Vec :=
  if d.x ≠ 0 then
    match t with
    | Turn.left => ⟨0, -sign d.x⟩
    | Turn.right => ⟨0, sign d.x⟩
  else if d.z ≠ 0 then
    match t with
    | Turn.left => ⟨sign d.z, 0⟩
    | Turn.right => ⟨-sign d.z, 0⟩
  else ⟨0, 0⟩

/-- The direction a tick moves along: the resolved turn if one is
requested and its newDir has positive squared length, else the old
direction (part_000 line 258). -/
def effDir (s : BState) : Vec :=
  match s.turnRequested with
  | none => s.direction
  | some t =>
    let nd := turnDir s.direction t
    if 0 < nd.x ^ 2 + nd.z ^ 2 then nd else s.direction

/-- The wrap-around boundary policy of part_000 line 260: a coordinate
reaching halfPlane re-enters at -halfPlane + GRID_SIZE * 0.5, and one
below -halfPlane re-enters at halfPlane - GRID_SIZE * 0.5. -/
def wrapPos (p : Vec) : Vec :=
  ⟨if p.x ≥ halfPlane then -halfPlane + 1 / 2
    else if p.x < -halfPlane then halfPlane - 1 / 2 else p.x,
   if p.z ≥ halfPlane then -halfPlane + 1 / 2
    else if p.z < -halfPlane then halfPlane - 1 / 2 else p.z⟩

/-- Self-collision test of part_000 line 261: candidate head within
GRID_SIZE * 0.4 * currentSnakeSizeMultiplier of a non-head segment. -/
def selfHit (m : ℚ) (newHeadPos : Vec) (rest : List Vec) : Bool :=
  rest.any (fun seg => decide (newHeadPos.distSq seg < (2 / 5 * m) ^ 2))

/-- The function isPositionValid, part_000 line 254: clearance to every
snake segment (plus half a segment radius), every food, every power-up,
every scenery object (plus 1.5), and the plane bounds. -/
def isPositionValid (snake foods : List Vec) (powerUps : List (Vec × PUType))
    (scenery : List Vec) (m : ℚ) (pos : Vec) (clearance : ℚ) : Bool :=
  snake.all (fun seg => !decide (seg.distSq pos < (clearance + 1 / 2 * m) ^ 2)) &&
  foods.all (fun f => !decide (f.distSq pos < clearance ^ 2)) &&
  powerUps.all (fun pu => !decide (pu.1.distSq pos < clearance ^ 2)) &&
  scenery.all (fun o => !decide (pos.distSq o < (clearance + 3 / 2) ^ 2)) &&
  !(decide (pos.x ≥ halfPlane) || decide (pos.x < -halfPlane) ||
    decide (pos.z ≥ halfPlane) || decide (pos.z < -halfPlane))

/-- The function getRandomGridPosition, part_000 line 304: each axis is
round(random() * 98) - 49 with maxCoord = floor(PLANE_SIZE / 2) - 1 =
49; the rounded result is the random input, reduced mod 99 to its
range 0..98. -/
def getRandomGridPosition (a b : ℕ) : Vec :=
  ⟨((a % 99 : ℕ) : ℚ) - 49, ((b % 99 : ℕ) : ℚ) - 49⟩

/-- The function spawnSingleFood, part_000 line 252: up to 50 random
draws, accepting the first isPositionValid one with clearance
GRID_SIZE * 0.5; none means all 50 failed and the source only logs a
warning and spawns nothing. -/
def spawnSingleFood (snake foods : List Vec) (powerUps : List (Vec × PUType))
    (scenery : List Vec) (m : ℚ) (c : ℕ → ℕ × ℕ) : Option Vec :=
  ((List.range 50).map (fun i => getRandomGridPosition (c i).1 (c i).2)).find?
    (fun p => isPositionValid snake foods powerUps scenery m p (1 / 2))

/-- The function manageFoodSpawning, part_000 line 250: spawn single
foods while the count is below MAX_FOOD_COUNT.  `cs k` feeds the random
draws of call k.  The source loop is unbounded and a failed
spawnSingleFood leaves the count unchanged, so the loop would then
retry forever; `fuel` counts the observed iterations. -/
def manageFoodSpawning (snake : List Vec) (powerUps : List (Vec × PUType))
    (scenery : List Vec) (m : ℚ) (cs : ℕ → ℕ → ℕ × ℕ) :
    ℕ → List Vec → List Vec
  | 0, foods => foods
  | fuel + 1, foods =>
    if foods.length < MAX_FOOD_COUNT then
      match spawnSingleFood snake foods powerUps scenery m (cs 0) with
      | some p =>
        manageFoodSpawning snake powerUps scenery m (fun k => cs (k + 1)) fuel (foods ++ [p])
      | none =>
        manageFoodSpawning snake powerUps scenery m (fun k => cs (k + 1)) fuel foods
    else foods

/-- Removal pattern of the pickup loops (part_000 lines 265-286): the
source iterates indices downward from the end and breaks at the first
hit, so the hit with the largest index is removed; the scan of the tail
is preferred over the head. -/
def removeLastHit {α : Type} (hit : α → Bool) : List α → Option (α × List α)
  | [] => none
  | a :: l =>
    match removeLastHit hit l with
    | some (e, l2) => some (e, a :: l2)
    | none => if hit a then some (a, l) else none

end Snake3

namespace Snake3

/-- The function deactivateCurrentPowerUp, part_000 line 300: revert the
modifier of the active kind to its stored base constant, then clear the
active slot and the expiry (updateSnakeSegmentSizes only rebuilds mesh
geometry). -/
def deactivateCurrentPowerUp (s : BState) : BState :=
  match s.activePowerUp with
  | none => s
  | some t =>
    let s2 :=
      match t with
      | PUType.shrink => { s with currentSnakeSizeMultiplier := BASE_SNAKE_SIZE_MULTIPLIER }
      | PUType.speedup =>
        { s with currentSnakeSpeed := SNAKE_SPEED, updateInterval := 1000 / SNAKE_SPEED }
      | PUType.slowdown =>
        { s with currentSnakeSpeed := SNAKE_SPEED, updateInterval := 1000 / SNAKE_SPEED }
    { s2 with activePowerUp := none, powerUpExpiryTime := 0 }

/-- The function activatePowerUp, part_000 line 298: deactivate any
current effect first, record the new kind and expiry, then apply its
modifier. -/
def activatePowerUp (t : PUType) (now : ℚ) (s : BState) : BState :=
  let s1 := deactivateCurrentPowerUp s
  let s2 := { s1 with activePowerUp := some t, powerUpExpiryTime := now + POWERUP_DURATION }
  match t with
  | PUType.shrink =>
    { s2 with currentSnakeSizeMultiplier := BASE_SNAKE_SIZE_MULTIPLIER * SHRINK_FACTOR }
  | PUType.speedup =>
    { s2 with currentSnakeSpeed := SNAKE_SPEED * SPEED_UP_FACTOR,
              updateInterval := 1000 / (SNAKE_SPEED * SPEED_UP_FACTOR) }
  | PUType.slowdown =>
    { s2 with currentSnakeSpeed := SNAKE_SPEED * SLOW_DOWN_FACTOR,
              updateInterval := 1000 / (SNAKE_SPEED * SLOW_DOWN_FACTOR) }

/-- The function checkPowerUpExpiry, part_000 line 299: deactivate when
an effect is active and now has passed its expiry time. -/
def checkPowerUpExpiry (now : ℚ) (s : BState) : BState :=
  if s.activePowerUp.isSome && decide (s.powerUpExpiryTime < now) then
    deactivateCurrentPowerUp s
  else s

/-- The function triggerGameOver, part_000 lines 307-315: freeze the
flags and deactivate any active power-up (music and UI are
presentation). -/
def triggerGameOver (s : BState) : BState :=
  deactivateCurrentPowerUp { s with gameRunning := false, gameOver := true }

/-- The food-collision section of moveSnake, part_000 lines 263-274:
remove the hit food with the largest index if any, bump the score, and
top the food list back up with manageFoodSpawning; the Bool records
ateFood. -/
def foodPhase (cs : ℕ → ℕ → ℕ × ℕ) (fuel : ℕ) (newHeadPos : Vec) (s : BState) :
    Bool × BState :=
  match removeLastHit
      (fun f => decide (newHeadPos.distSq f <
        (4 / 5 * s.currentSnakeSizeMultiplier) ^ 2)) s.foods with
  | some (_, foods1) =>
    (true,
      { s with score := s.score + 1,
               foods := manageFoodSpawning s.snake s.powerUps s.sceneryObjects
                 s.currentSnakeSizeMultiplier cs fuel foods1 })
  | none => (false, s)

/-- The power-up-collision section of moveSnake, part_000 lines 277-286:
remove the hit power-up with the largest index if any and activate its
type. -/
def powerUpPhase (now : ℚ) (newHeadPos : Vec) (s : BState) : BState :=
  match removeLastHit
      (fun pu => decide (newHeadPos.distSq pu.1 <
        (4 / 5 * s.currentSnakeSizeMultiplier) ^ 2)) s.powerUps with
  | some (pu, pus1) => activatePowerUp pu.2 now { s with powerUps := pus1 }
  | none => s

/-- The body-shift and growth section of moveSnake, part_000 lines
288-293: the head takes the candidate position, every other segment
takes its predecessor's old position, and if food was eaten a segment
is appended at the position the old tail vacated. -/
def shiftPhase (ate : Bool) (newHeadPos : Vec) (s : BState) : BState :=
  match s.snake with
  | [] => s
  | head :: rest =>
    let body := newHeadPos :: (head :: rest).dropLast
    let body :=
      if ate then body ++ [(head :: rest).getLast (List.cons_ne_nil head rest)]
      else body
    { s with snake := body }

/-- One logic tick: the function moveSnake of part_000 lines 256-294,
with `now` the performance.now() reading and `cs` the random draws fed
to any food respawn. -/
def moveSnake (now : ℚ) (cs : ℕ → ℕ → ℕ × ℕ) (fuel : ℕ) (s : BState) : BState :=
  if !s.gameRunning || s.gameOver then s
  else
    match s.snake with
    | [] => s
    | head :: rest =>
      let dir := effDir s
      let s1 : BState := { s with direction := dir, turnRequested := none }
      let newHeadPos := wrapPos (head.add dir)
      if selfHit s1.currentSnakeSizeMultiplier newHeadPos rest then triggerGameOver s1
      else
        let fp := foodPhase cs fuel newHeadPos s1
        let s3 := powerUpPhase now newHeadPos fp.2
        shiftPhase fp.1 newHeadPos s3

/-- The function startGame, part_000 lines 236-248 (timer and overlay
writes are presentation). -/
def startGame (s : BState) : BState :=
  if !s.gameRunning then { s with gameRunning := true, gameOver := false } else s

/-- The initial three-segment body of part_000 lines 211-215. -/
def initialSnake : List Vec := [⟨2, 0⟩, ⟨1, 0⟩, ⟨0, 0⟩]

/-- The function resetGame, part_000 lines 192-234: entities cleared,
flags, directions, score, speed and size modifiers reset to their base
constants, the body re-seeded, and the food list topped up to its cap;
sceneryObjects persists from init.  `cs` and `fuel` feed the food
spawning as in manageFoodSpawning. -/
def resetGame (cs : ℕ → ℕ → ℕ × ℕ) (fuel : ℕ) (s : BState) : BState :=
  let base : BState :=
    { snake := initialSnake
      foods := []
      powerUps := []
      sceneryObjects := s.sceneryObjects
      direction := ⟨1, 0⟩
      turnRequested := none
      activePowerUp := none
      powerUpExpiryTime := 0
      currentSnakeSpeed := SNAKE_SPEED
      currentSnakeSizeMultiplier := BASE_SNAKE_SIZE_MULTIPLIER
      updateInterval := 1000 / SNAKE_SPEED
      score := 0
      gameRunning := false
      gameOver := false }
  { base with
    foods := manageFoodSpawning base.snake base.powerUps base.sceneryObjects
      base.currentSnakeSizeMultiplier cs fuel [] }

/-- Keyboard inputs part_000 handleKeyDown distinguishes. -/
inductive BKey where
  | left
  | right
  | space
  | other
deriving DecidableEq, Repr

/-- The function handleKeyDown, part_000 lines 338-354: spacebar starts
from Idle and resets from GameOver; while running, a turn key writes
the turnRequested slot only when it is empty. -/
def handleKeyDown (k : BKey) (cs : ℕ → ℕ → ℕ × ℕ) (fuel : ℕ) (s : BState) : BState :=
  if !s.gameRunning && !s.gameOver && k == BKey.space then startGame s
  else if s.gameOver && k == BKey.space then resetGame cs fuel s
  else if s.gameRunning then
    match k with
    | BKey.left => if s.turnRequested == none then { s with turnRequested := some Turn.left } else s
    | BKey.right => if s.turnRequested == none then { s with turnRequested := some Turn.right } else s
    | _ => s
  else s

/-- Which half of the screen a touch landed on. -/
inductive TouchSide where
  | left
  | right
deriving DecidableEq, Repr

/-- The function handleTouchStart, part_000 lines 138-173: tap restarts
from GameOver, starts from Idle, and otherwise writes the turnRequested
slot only when it is empty (left half requests left, right half
right). -/
def handleTouchStart (side : TouchSide) (cs : ℕ → ℕ → ℕ × ℕ) (fuel : ℕ)
    (s : BState) : BState :=
  if s.gameOver then resetGame cs fuel s
  else if !s.gameRunning then startGame s
  else if s.turnRequested == none then
    let t := match side with
      | TouchSide.left => Turn.left
      | TouchSide.right => Turn.right
    { s with turnRequested := some t }
  else s

end Snake3

namespace Snake3

/-- Consistency of the effect timer with the modifier fields: the size
multiplier is its base constant unless Shrink is active (then base
times shrink factor), the speed is its base constant unless SpeedUp or
SlowDown is active (then base times that factor), and the tick interval
always equals 1000 / speed. -/
def EffectInv (s : BState) : Prop :=
  (s.activePowerUp = some PUType.shrink →
    s.currentSnakeSizeMultiplier = BASE_SNAKE_SIZE_MULTIPLIER * SHRINK_FACTOR) ∧
  (s.activePowerUp ≠ some PUType.shrink →
    s.currentSnakeSizeMultiplier = BASE_SNAKE_SIZE_MULTIPLIER) ∧
  (s.activePowerUp = some PUType.speedup →
    s.currentSnakeSpeed = SNAKE_SPEED * SPEED_UP_FACTOR) ∧
  (s.activePowerUp = some PUType.slowdown →
    s.currentSnakeSpeed = SNAKE_SPEED * SLOW_DOWN_FACTOR) ∧
  (s.activePowerUp ≠ some PUType.speedup → s.activePowerUp ≠ some PUType.slowdown →
    s.currentSnakeSpeed = SNAKE_SPEED) ∧
  s.updateInterval = 1000 / s.currentSnakeSpeed

/-- Deactivation restores every modifier to its stored base constant. -/
theorem deactivate_base (s : BState) (h : EffectInv s) :
    (deactivateCurrentPowerUp s).activePowerUp = none ∧
    (deactivateCurrentPowerUp s).currentSnakeSizeMultiplier = BASE_SNAKE_SIZE_MULTIPLIER ∧
    (deactivateCurrentPowerUp s).currentSnakeSpeed = SNAKE_SPEED ∧
    (deactivateCurrentPowerUp s).updateInterval = 1000 / SNAKE_SPEED := by
  obtain ⟨h1, h2, h3, h4, h5, h6⟩ := h
  cases hap : s.activePowerUp with
  | none =>
    have hsz := h2 (by simp [hap])
    have hsp := h5 (by simp [hap]) (by simp [hap])
    refine ⟨?_, ?_, ?_, ?_⟩ <;> simp only [deactivateCurrentPowerUp, hap]
    · exact hsz
    · exact hsp
    · rw [h6, hsp]
  | some t =>
    cases t with
    | shrink =>
      have hsp := h5 (by simp [hap]) (by simp [hap])
      refine ⟨?_, ?_, ?_, ?_⟩ <;> simp only [deactivateCurrentPowerUp, hap]
      · exact hsp
      · rw [h6, hsp]
    | speedup =>
      have hsz := h2 (by simp [hap])
      refine ⟨?_, ?_, ?_, ?_⟩ <;> simp only [deactivateCurrentPowerUp, hap]
      exact hsz
    | slowdown =>
      have hsz := h2 (by simp [hap])
      refine ⟨?_, ?_, ?_, ?_⟩ <;> simp only [deactivateCurrentPowerUp, hap]
      exact hsz

/-- A state with no active effect and all base modifiers satisfies the
effect invariant. -/
theorem effectInv_of_base (s : BState) (h1 : s.activePowerUp = none)
    (h2 : s.currentSnakeSizeMultiplier = BASE_SNAKE_SIZE_MULTIPLIER)
    (h3 : s.currentSnakeSpeed = SNAKE_SPEED)
    (h4 : s.updateInterval = 1000 / SNAKE_SPEED) : EffectInv s := by
  refine ⟨?_, fun _ => h2, ?_, ?_, fun _ _ => h3, by rw [h4, h3]⟩ <;>
    · intro hc
      rw [h1] at hc
      exact Option.noConfusion hc

/-- Deactivation preserves the effect invariant. -/
theorem deactivate_effectInv (s : BState) (h : EffectInv s) :
    EffectInv (deactivateCurrentPowerUp s) := by
  obtain ⟨ha, hsz, hsp, hint⟩ := deactivate_base s h
  exact effectInv_of_base _ ha hsz hsp hint

/-- Activation yields exactly the new effect with exactly its modifier
applied on top of fully reverted bases, preserving the invariant. -/
theorem activate_effectInv (t : PUType) (now : ℚ) (s : BState) (h : EffectInv s) :
    EffectInv (activatePowerUp t now s) ∧
    (activatePowerUp t now s).activePowerUp = some t := by
  obtain ⟨ha, hsz, hsp, hint⟩ := deactivate_base s h
  cases t with
  | shrink =>
    refine ⟨⟨?_, ?_, ?_, ?_, ?_, ?_⟩, ?_⟩ <;>
      simp only [activatePowerUp, hsz, hsp, hint] <;> intros <;> simp_all
  | speedup =>
    refine ⟨⟨?_, ?_, ?_, ?_, ?_, ?_⟩, ?_⟩ <;>
      simp only [activatePowerUp, hsz, hsp, hint] <;> intros <;> simp_all
  | slowdown =>
    refine ⟨⟨?_, ?_, ?_, ?_, ?_, ?_⟩, ?_⟩ <;>
      simp only [activatePowerUp, hsz, hsp, hint] <;> intros <;> simp_all

/-- Expiry checking preserves the effect invariant. -/
theorem expiry_effectInv (now : ℚ) (s : BState) (h : EffectInv s) :
    EffectInv (checkPowerUpExpiry now s) := by
  rw [checkPowerUpExpiry]
  split
  · exact deactivate_effectInv s h
  · exact h

/-- An operation on the effect timer. -/
inductive PUOp where
  | activate (t : PUType) (now : ℚ)
  | expiry (now : ℚ)
  | deact
deriving DecidableEq, Repr

/-- Run one effect-timer operation. -/
def applyPUOp (s : BState) (op : PUOp) : BState :=
  match op with
  | PUOp.activate t now => activatePowerUp t now s
  | PUOp.expiry now => checkPowerUpExpiry now s
  | PUOp.deact => deactivateCurrentPowerUp s

/-- Run a sequence of effect-timer operations, oldest first. -/
def applyPUOps (ops : List PUOp) (s : BState) : BState := ops.foldl applyPUOp s

/-- Any sequence of activate, expiry-check and deactivate operations
preserves the effect invariant. -/
theorem applyPUOps_effectInv (ops : List PUOp) (s : BState) (h : EffectInv s) :
    EffectInv (applyPUOps ops s) := by
  induction ops generalizing s with
  | nil => exact h
  | cons op rest ih =>
    rw [applyPUOps, List.foldl_cons]
    refine ih _ ?_
    cases op with
    | activate t now => exact (activate_effectInv t now s h).1
    | expiry now => exact expiry_effectInv now s h
    | deact => exact deactivate_effectInv s h

end Snake3

/-- C7: at most one power-up effect is ever active (the slot is a single
option), and after any sequence of activate, expiry and deactivate
operations from a consistent state, activating yields exactly the new
effect and deactivating restores the speed and size modifiers and the
tick interval exactly to their stored base constants, independent of
how many cycles preceded. -/
theorem c7_effect_exclusive_no_drift (s : Snake3.BState) (ops : List Snake3.PUOp)
    (hinv : Snake3.EffectInv s) :
    (∀ (t : Snake3.PUType) (now : ℚ),
        (Snake3.activatePowerUp t now (Snake3.applyPUOps ops s)).activePowerUp = some t) ∧
    (Snake3.deactivateCurrentPowerUp (Snake3.applyPUOps ops s)).activePowerUp = none ∧
    (Snake3.deactivateCurrentPowerUp
        (Snake3.applyPUOps ops s)).currentSnakeSizeMultiplier
      = Snake3.BASE_SNAKE_SIZE_MULTIPLIER ∧
    (Snake3.deactivateCurrentPowerUp (Snake3.applyPUOps ops s)).currentSnakeSpeed
      = Snake3.SNAKE_SPEED ∧
    (Snake3.deactivateCurrentPowerUp (Snake3.applyPUOps ops s)).updateInterval
      = 1000 / Snake3.SNAKE_SPEED := by
  have hinv2 := Snake3.applyPUOps_effectInv ops s hinv
  obtain ⟨ha, hsz, hsp, hint⟩ := Snake3.deactivate_base _ hinv2
  exact ⟨fun t now => (Snake3.activate_effectInv t now _ hinv2).2, ha, hsz, hsp, hint⟩

/-- A concrete part_000 state with no active effect and base modifiers. -/
def Snake3.pBase : Snake3.BState :=
  { snake := Snake3.initialSnake
    foods := []
    powerUps := []
    sceneryObjects := []
    direction := ⟨1, 0⟩
    turnRequested := none
    activePowerUp := none
    powerUpExpiryTime := 0
    currentSnakeSpeed := Snake3.SNAKE_SPEED
    currentSnakeSizeMultiplier := Snake3.BASE_SNAKE_SIZE_MULTIPLIER
    updateInterval := 1000 / Snake3.SNAKE_SPEED
    score := 0
    gameRunning := true
    gameOver := false }

/-- A concrete activate, expire, activate, deactivate, activate cycle. -/
def Snake3.demoOps : List Snake3.PUOp :=
  [Snake3.PUOp.activate Snake3.PUType.shrink 0,
   Snake3.PUOp.expiry 20000,
   Snake3.PUOp.activate Snake3.PUType.speedup 20100,
   Snake3.PUOp.deact,
   Snake3.PUOp.activate Snake3.PUType.slowdown 20200]

/-- Closed witness for c7_effect_exclusive_no_drift after the concrete
five-operation history. -/
theorem c7_effect_exclusive_no_drift_witness :
    (Snake3.activatePowerUp Snake3.PUType.speedup 30000
        (Snake3.applyPUOps Snake3.demoOps Snake3.pBase)).activePowerUp
      = some Snake3.PUType.speedup ∧
    (Snake3.deactivateCurrentPowerUp
        (Snake3.applyPUOps Snake3.demoOps Snake3.pBase)).currentSnakeSizeMultiplier
      = Snake3.BASE_SNAKE_SIZE_MULTIPLIER ∧
    (Snake3.deactivateCurrentPowerUp
        (Snake3.applyPUOps Snake3.demoOps Snake3.pBase)).currentSnakeSpeed
      = Snake3.SNAKE_SPEED :=
  have h := c7_effect_exclusive_no_drift Snake3.pBase Snake3.demoOps
    (Snake3.effectInv_of_base Snake3.pBase rfl rfl rfl rfl)
  ⟨h.1 Snake3.PUType.speedup 30000, h.2.2.1, h.2.2.2.1⟩

namespace Snake3

/-- The turn a key requests, if any. -/
def keyTurn : BKey → Option Turn
  | BKey.left => some Turn.left
  | BKey.right => some Turn.right
  | _ => none

/-- The first turn requested by a key sequence, oldest first. -/
def firstTurnKey : List BKey → Option Turn
  | [] => none
  | k :: ks => (keyTurn k).or (firstTurnKey ks)

/-- While running, a key event only ever writes the empty turnRequested
slot (part_000 lines 348-353): flags are untouched and the slot ends as
its old value, or the key's turn if it was empty. -/
theorem handleKeyDown_slot_write (k : BKey) (cs : ℕ → ℕ → ℕ × ℕ) (fuel : ℕ) (s : BState)
    (hrun : s.gameRunning = true) (hover : s.gameOver = false) :
    (handleKeyDown k cs fuel s).gameRunning = true ∧
    (handleKeyDown k cs fuel s).gameOver = false ∧
    (handleKeyDown k cs fuel s).turnRequested = s.turnRequested.or (keyTurn k) := by
  cases k <;> cases hslot : s.turnRequested <;>
    simp [handleKeyDown, keyTurn, hrun, hover, hslot, Option.or]

end Snake3

namespace Script

/-- Whether the guard of script.js lines 442-467 admits a turn key
against a given current direction. -/
def keyAccepted (k : Key) (d : Vec) : Bool :=
  match k with
  | Key.up => decide (d.z = 0)
  | Key.down => decide (d.z = 0)
  | Key.left => decide (d.x = 0)
  | Key.right => decide (d.x = 0)
  | _ => false

/-- While running, a script.js key event can only write nextDirection:
flags and direction are untouched, and an accepted turn key overwrites
the buffer with its vector. -/
theorem handleKeyDown_buffer_write (k : Key) (nf : Vec) (s : GState)
    (hrun : s.gameRunning = true) (hover : s.gameOver = false) :
    (handleKeyDown k nf s).gameRunning = true ∧
    (handleKeyDown k nf s).gameOver = false ∧
    (handleKeyDown k nf s).direction = s.direction ∧
    (∀ d, keyVec k = some d → keyAccepted k s.direction = true →
      (handleKeyDown k nf s).nextDirection = d) := by
  cases k <;>
    simp only [handleKeyDown, keyVec, keyAccepted, hrun, hover, Bool.not_true,
      Bool.false_and, Bool.and_false, Bool.and_self, Bool.false_eq_true, if_false,
      decide_eq_true_eq, Option.some.injEq, reduceCtorEq, false_implies, imp_self,
      implies_true, and_true, and_self] <;>
    split <;>
    simp_all

end Script

/-- C8 counterexample input: a running part_000 state with an empty
pending-turn slot. -/
def Snake3.bRun : Snake3.BState :=
  { Snake3.pBase with gameRunning := true, gameOver := false }

/-- A constant random stream for calls that will not draw. -/
def Snake3.cs0 : ℕ → ℕ → ℕ × ℕ := fun _ _ => (0, 0)

/-- C8 counterexample: in part_000 two turn keys arriving between ticks
leave the FIRST request in the slot, not the last: after pressing left
then right, the slot holds left, so the last-write-wins reading of the
claim is false on this variant. -/
theorem c8_last_write_wins_cex :
    (Snake3.handleKeyDown Snake3.BKey.right Snake3.cs0 0
        (Snake3.handleKeyDown Snake3.BKey.left Snake3.cs0 0 Snake3.bRun)).turnRequested
      = some Snake3.Turn.left ∧
    (some Snake3.Turn.left ≠ some Snake3.Turn.right) := by
  constructor
  · with_unfolding_all decide
  · decide

/-- C8 amended: each variant keeps a single pending-turn slot and no
queue; in part_000 the slot holds the FIRST request written since it
was last cleared (writes while it is full are dropped), while in
script.js the slot holds the LAST accepted request (a later accepted
turn key overwrites an earlier one). -/
theorem c8_pending_slot_discipline :
    (∀ (s : Snake3.BState) (ks : List Snake3.BKey) (cs : ℕ → ℕ → ℕ × ℕ) (fuel : ℕ),
        s.gameRunning = true → s.gameOver = false →
        (ks.foldl (fun st k => Snake3.handleKeyDown k cs fuel st) s).turnRequested
          = s.turnRequested.or (Snake3.firstTurnKey ks)) ∧
    (∀ (s : Script.GState) (k1 k2 : Script.Key) (nf1 nf2 : Vec) (d2 : Vec),
        s.gameRunning = true → s.gameOver = false →
        Script.keyVec k2 = some d2 →
        Script.keyAccepted k2 s.direction = true →
        (Script.handleKeyDown k2 nf2 (Script.handleKeyDown k1 nf1 s)).nextDirection = d2) := by
  constructor
  · intro s ks cs fuel hrun hover
    induction ks generalizing s with
    | nil => simp [Snake3.firstTurnKey, Option.or_none]
    | cons k rest ih =>
      obtain ⟨h1, h2, h3⟩ := Snake3.handleKeyDown_slot_write k cs fuel s hrun hover
      rw [List.foldl_cons, ih _ h1 h2, h3, Snake3.firstTurnKey]
      cases hslot : s.turnRequested <;> cases hk : Snake3.keyTurn k <;>
        simp [Option.or]
  · intro s k1 k2 nf1 nf2 d2 hrun hover hvec hacc
    obtain ⟨h1, h2, h3, _⟩ := Script.handleKeyDown_buffer_write k1 nf1 s hrun hover
    obtain ⟨_, _, _, h4⟩ := Script.handleKeyDown_buffer_write k2 nf2
      (Script.handleKeyDown k1 nf1 s) h1 h2
    exact h4 d2 hvec (by rw [h3]; exact hacc)

/-- Closed witness for c8_pending_slot_discipline: the part_000 fold on
a left-then-right sequence from an empty slot yields left, and in
script.js pressing up then down while heading +x leaves down in the
buffer. -/
theorem c8_pending_slot_discipline_witness :
    ([Snake3.BKey.left, Snake3.BKey.right].foldl
        (fun st k => Snake3.handleKeyDown k Snake3.cs0 0 st) Snake3.bRun).turnRequested
      = some Snake3.Turn.left ∧
    (Script.handleKeyDown Script.Key.down ⟨9, 9⟩
        (Script.handleKeyDown Script.Key.up ⟨9, 9⟩ Script.s0)).nextDirection = ⟨0, 1⟩ := by
  constructor
  · rw [c8_pending_slot_discipline.1 Snake3.bRun [Snake3.BKey.left, Snake3.BKey.right]
      Snake3.cs0 0 rfl rfl]
    with_unfolding_all decide
  · exact c8_pending_slot_discipline.2 Script.s0 Script.Key.up Script.Key.down ⟨9, 9⟩ ⟨9, 9⟩
      ⟨0, 1⟩ rfl rfl rfl (by with_unfolding_all decide)

namespace Snake3

/-- If the downward-scanning removal finds nothing, no element is hit. -/
theorem removeLastHit_none {α : Type} (hit : α → Bool) (l : List α)
    (h : removeLastHit hit l = none) : ∀ x ∈ l, hit x = false := by
  induction l with
  | nil => intro x hx; exact absurd hx (List.not_mem_nil x)
  | cons a l ih =>
    intro x hx
    rw [removeLastHit] at h
    cases hr : removeLastHit hit l with
    | some r => rw [hr] at h; exact Option.noConfusion h
    | none =>
      rw [hr] at h
      by_cases ha : hit a = true
      · rw [if_pos ha] at h; exact Option.noConfusion h
      · rcases List.mem_cons.mp hx with hxa | hxl
        · subst hxa; exact Bool.eq_false_iff.mpr ha
        · exact ih hr x hxl

/-- The downward-scanning removal removes exactly one element. -/
theorem removeLastHit_length {α : Type} (hit : α → Bool) (l : List α)
    (e : α) (l2 : List α) (h : removeLastHit hit l = some (e, l2)) :
    l2.length + 1 = l.length := by
  induction l generalizing e l2 with
  | nil => exact Option.noConfusion h
  | cons a l ih =>
    rw [removeLastHit] at h
    cases hr : removeLastHit hit l with
    | some r =>
      rw [hr] at h
      obtain ⟨e0, l0⟩ := r
      have h2 := Option.some.injEq _ _ ▸ h
      injection h with hpair
      injection hpair with he hl
      subst hl
      simp only [List.length_cons]
      rw [← ih e0 l0 hr]
    | none =>
      rw [hr] at h
      by_cases ha : hit a = true
      · rw [if_pos ha] at h
        injection h with hpair
        injection hpair with he hl
        subst hl
        rfl
      · rw [if_neg ha] at h; exact Option.noConfusion h

/-- manageFoodSpawning is the identity once the food count has reached
its cap. -/
theorem manage_at_cap (snake : List Vec) (pus : List (Vec × PUType)) (scenery : List Vec)
    (m : ℚ) (cs : ℕ → ℕ → ℕ × ℕ) (fuel : ℕ) (foods : List Vec)
    (h : MAX_FOOD_COUNT ≤ foods.length) :
    manageFoodSpawning snake pus scenery m cs fuel foods = foods := by
  cases fuel with
  | zero => rfl
  | succ f =>
    rw [manageFoodSpawning, if_neg]
    omega

/-- One food below the cap and a successful first spawn: the loop tops
the list back up to the cap with exactly the spawned position. -/
theorem manage_one_step (snake : List Vec) (pus : List (Vec × PUType)) (scenery : List Vec)
    (m : ℚ) (cs : ℕ → ℕ → ℕ × ℕ) (fuel : ℕ) (foods : List Vec) (q : Vec)
    (hlen : foods.length + 1 = MAX_FOOD_COUNT)
    (hspawn : spawnSingleFood snake foods pus scenery m (cs 0) = some q)
    (hfuel : 1 ≤ fuel) :
    manageFoodSpawning snake pus scenery m cs fuel foods = foods ++ [q] := by
  cases fuel with
  | zero => omega
  | succ f =>
    rw [manageFoodSpawning, if_pos (by omega), hspawn]
    exact manage_at_cap snake pus scenery m _ f (foods ++ [q]) (by simp; omega)

/-- Deactivation never touches the entity registry or the score. -/
theorem deactivate_entities (s : BState) :
    (deactivateCurrentPowerUp s).snake = s.snake ∧
    (deactivateCurrentPowerUp s).foods = s.foods ∧
    (deactivateCurrentPowerUp s).score = s.score := by
  cases hap : s.activePowerUp with
  | none => simp [deactivateCurrentPowerUp, hap]
  | some t => cases t <;> simp [deactivateCurrentPowerUp, hap]

/-- Activation never touches the entity registry or the score. -/
theorem activate_entities (t : PUType) (now : ℚ) (s : BState) :
    (activatePowerUp t now s).snake = s.snake ∧
    (activatePowerUp t now s).foods = s.foods ∧
    (activatePowerUp t now s).score = s.score := by
  obtain ⟨h1, h2, h3⟩ := deactivate_entities s
  cases t <;> simp [activatePowerUp, h1, h2, h3]

/-- The power-up pickup phase never touches body, foods or score. -/
theorem powerUpPhase_entities (now : ℚ) (p : Vec) (s : BState) :
    (powerUpPhase now p s).snake = s.snake ∧
    (powerUpPhase now p s).foods = s.foods ∧
    (powerUpPhase now p s).score = s.score := by
  rw [powerUpPhase]
  cases hr : removeLastHit
      (fun pu => decide (p.distSq pu.1 < (4 / 5 * s.currentSnakeSizeMultiplier) ^ 2))
      s.powerUps with
  | none => exact ⟨rfl, rfl, rfl⟩
  | some r =>
    obtain ⟨pu, pus1⟩ := r
    obtain ⟨h1, h2, h3⟩ := activate_entities pu.2 now { s with powerUps := pus1 }
    simp [h1, h2, h3]

/-- The shift phase only rewrites the body. -/
theorem shiftPhase_fields (ate : Bool) (p : Vec) (s : BState) :
    (shiftPhase ate p s).foods = s.foods ∧ (shiftPhase ate p s).score = s.score := by
  rw [shiftPhase]
  cases s.snake with
  | nil => exact ⟨rfl, rfl⟩
  | cons head rest => cases ate <;> simp

/-- With growth, the shifted body is the candidate head consed onto the
whole old body: the queue shift drops the old tail position and the
growth appends a segment right back at it. -/
theorem shiftPhase_grow (p : Vec) (s : BState) (head : Vec) (rest : List Vec)
    (hsn : s.snake = head :: rest) :
    (shiftPhase true p s).snake = p :: s.snake := by
  simp only [shiftPhase, hsn, if_true]
  rw [List.cons_append, List.dropLast_append_getLast (List.cons_ne_nil head rest)]

end Snake3

/-- C3: a part_000 tick whose candidate head is within the pickup
threshold of exactly one food (and which hits no body segment)
increments the score by exactly 1, grows the body by exactly one
segment appended at the position the former tail vacated (the new body
is the candidate head consed onto the whole old body), and, provided
the replacement draw succeeds, restores the food count to
MAX_FOOD_COUNT within the same tick. -/
theorem c3_eat_one_food (now : ℚ) (cs : ℕ → ℕ → ℕ × ℕ) (fuel : ℕ) (s : Snake3.BState)
    (head : Vec) (rest : List Vec)
    (hsn : s.snake = head :: rest)
    (hrun : s.gameRunning = true) (hover : s.gameOver = false)
    (hfuel : 1 ≤ fuel)
    (hcap : s.foods.length = Snake3.MAX_FOOD_COUNT)
    (hself : Snake3.selfHit s.currentSnakeSizeMultiplier
      (Snake3.wrapPos (head.add (Snake3.effDir s))) rest = false)
    (hone : s.foods.countP
      (fun f => decide ((Snake3.wrapPos (head.add (Snake3.effDir s))).distSq f
        < (4 / 5 * s.currentSnakeSizeMultiplier) ^ 2)) = 1)
    (hspawn : ∀ (e : Vec) (foods1 : List Vec),
      Snake3.removeLastHit
        (fun f => decide ((Snake3.wrapPos (head.add (Snake3.effDir s))).distSq f
          < (4 / 5 * s.currentSnakeSizeMultiplier) ^ 2)) s.foods = some (e, foods1) →
      Snake3.spawnSingleFood s.snake foods1 s.powerUps s.sceneryObjects
        s.currentSnakeSizeMultiplier (cs 0) ≠ none) :
    (Snake3.moveSnake now cs fuel s).score = s.score + 1 ∧
    (Snake3.moveSnake now cs fuel s).snake.length = s.snake.length + 1 ∧
    (Snake3.moveSnake now cs fuel s).snake
      = Snake3.wrapPos (head.add (Snake3.effDir s)) :: s.snake ∧
    (Snake3.moveSnake now cs fuel s).foods.length = Snake3.MAX_FOOD_COUNT := by
  cases hr : Snake3.removeLastHit
      (fun f => decide ((Snake3.wrapPos (head.add (Snake3.effDir s))).distSq f
        < (4 / 5 * s.currentSnakeSizeMultiplier) ^ 2)) s.foods with
  | none =>
    exfalso
    have hz := Snake3.removeLastHit_none _ _ hr
    have : s.foods.countP
        (fun f => decide ((Snake3.wrapPos (head.add (Snake3.effDir s))).distSq f
          < (4 / 5 * s.currentSnakeSizeMultiplier) ^ 2)) = 0 := by
      rw [List.countP_eq_zero]
      intro x hx
      rw [hz x hx]
      exact Bool.false_ne_true
    omega
  | some r =>
    obtain ⟨e, foods1⟩ := r
    have hlen1 : foods1.length + 1 = s.foods.length :=
      Snake3.removeLastHit_length _ _ _ _ hr
    cases hsp : Snake3.spawnSingleFood s.snake foods1 s.powerUps s.sceneryObjects
        s.currentSnakeSizeMultiplier (cs 0) with
    | none => exact absurd hsp (hspawn e foods1 hr)
    | some q =>
      have hman : Snake3.manageFoodSpawning s.snake s.powerUps s.sceneryObjects
          s.currentSnakeSizeMultiplier cs fuel foods1 = foods1 ++ [q] :=
        Snake3.manage_one_step s.snake s.powerUps s.sceneryObjects
          s.currentSnakeSizeMultiplier cs fuel foods1 q (by omega) hsp hfuel
      rw [hsn] at hman
      have hstep : Snake3.moveSnake now cs fuel s =
          Snake3.shiftPhase true (Snake3.wrapPos (head.add (Snake3.effDir s)))
            (Snake3.powerUpPhase now (Snake3.wrapPos (head.add (Snake3.effDir s)))
              { s with direction := Snake3.effDir s, turnRequested := none,
                       score := s.score + 1, foods := foods1 ++ [q] }) := by
        simp only [Snake3.moveSnake, hsn, hrun, hover, hself, Snake3.foodPhase,
          Bool.not_true, Bool.false_or, Bool.false_eq_true, if_false, hr, hman]
      set s2 : Snake3.BState :=
        { s with direction := Snake3.effDir s, turnRequested := none,
                 score := s.score + 1, foods := foods1 ++ [q] } with hs2
      obtain ⟨hpu1, hpu2, hpu3⟩ :=
        Snake3.powerUpPhase_entities now (Snake3.wrapPos (head.add (Snake3.effDir s))) s2
      obtain ⟨hsf1, hsf2⟩ := Snake3.shiftPhase_fields true
        (Snake3.wrapPos (head.add (Snake3.effDir s)))
        (Snake3.powerUpPhase now (Snake3.wrapPos (head.add (Snake3.effDir s))) s2)
      have hsnake2 : (Snake3.powerUpPhase now
          (Snake3.wrapPos (head.add (Snake3.effDir s))) s2).snake = head :: rest := by
        rw [hpu1]; exact hsn
      have hshift := Snake3.shiftPhase_grow
        (Snake3.wrapPos (head.add (Snake3.effDir s)))
        (Snake3.powerUpPhase now (Snake3.wrapPos (head.add (Snake3.effDir s))) s2)
        head rest hsnake2
      refine ⟨?_, ?_, ?_, ?_⟩
      · rw [hstep, hsf2, hpu3]
      · rw [hstep, hshift, hsnake2, hsn]
        simp
      · rw [hstep, hshift, hsnake2, hsn]
      · rw [hstep, hsf1, hpu2]
        simp only [hs2]
        simp only [List.length_append, List.length_singleton]
        omega

/-- The 19 background foods of the C3 witness state, in a row far from
the snake. -/
def Snake3.wTail : List Vec := (List.range 19).map (fun k => ⟨(k : ℚ), 10⟩)

/-- The C3 witness state: the spec scenario body heading +x, the food
list at its cap of 20 with exactly one item at (3,0), right on the
candidate head. -/
def Snake3.wState : Snake3.BState :=
  { Snake3.pBase with foods := ⟨3, 0⟩ :: Snake3.wTail }

/-- The random stream of the C3 witness: every draw maps to (11, 20),
clear of everything. -/
def Snake3.csW : ℕ → ℕ → ℕ × ℕ := fun _ _ => (60, 69)

/-- Closed witness for c3_eat_one_food: eating the food at (3,0) bumps
the score to 1, grows the body to 4 segments, and the food count is
back at 20 in the same tick. -/
theorem c3_eat_one_food_witness :
    (Snake3.moveSnake 0 Snake3.csW 1 Snake3.wState).score = Snake3.wState.score + 1 ∧
    (Snake3.moveSnake 0 Snake3.csW 1 Snake3.wState).snake.length = 4 ∧
    (Snake3.moveSnake 0 Snake3.csW 1 Snake3.wState).foods.length = Snake3.MAX_FOOD_COUNT := by
  have h := c3_eat_one_food 0 Snake3.csW 1 Snake3.wState ⟨2, 0⟩ [⟨1, 0⟩, ⟨0, 0⟩]
    rfl rfl rfl (by decide)
    (by with_unfolding_all decide)
    (by with_unfolding_all decide)
    (by with_unfolding_all decide)
    (by
      intro e foods1 heq
      have hcomp : Snake3.removeLastHit
          (fun f => decide ((Snake3.wrapPos
              ((⟨2, 0⟩ : Vec).add (Snake3.effDir Snake3.wState))).distSq f
            < (4 / 5 * Snake3.wState.currentSnakeSizeMultiplier) ^ 2))
          Snake3.wState.foods = some (⟨3, 0⟩, Snake3.wTail) := by
        with_unfolding_all decide
      rw [hcomp] at heq
      injection heq with hpair
      injection hpair with he hf
      subst hf
      with_unfolding_all decide)
  refine ⟨h.1, ?_, h.2.2.2⟩
  rw [h.2.1]
  rfl

namespace Snake3

/-- Adjacent body segments are exactly one grid step apart (squared
distance 1), pairwise along the list. -/
def BodyChain (l : List Vec) : Prop :=
  List.Chain' (fun p q => Vec.distSq p q = 1) l

/-- Turning an axis-aligned unit direction yields an axis-aligned unit
direction. -/
theorem turnDir_unit (d : Vec) (t : Turn) (hd : d ∈ unitDirs) :
    turnDir d t ∈ unitDirs := by
  fin_cases hd <;> cases t <;> with_unfolding_all decide

/-- The effective direction of a tick stays an axis-aligned unit
direction. -/
theorem effDir_unit (s : BState) (hd : s.direction ∈ unitDirs) :
    effDir s ∈ unitDirs := by
  rw [effDir]
  cases s.turnRequested with
  | none => exact hd
  | some t =>
    show (if 0 < (turnDir s.direction t).x ^ 2 + (turnDir s.direction t).z ^ 2
      then turnDir s.direction t else s.direction) ∈ unitDirs
    split
    · exact turnDir_unit s.direction t hd
    · exact hd

/-- Moving one unit step changes the position by squared distance 1. -/
theorem distSq_add_unit (a d : Vec) (hd : d ∈ unitDirs) :
    Vec.distSq (a.add d) a = 1 := by
  fin_cases hd <;>
    · simp only [Vec.add, Vec.distSq]
      ring_nf

/-- triggerGameOver does not move the body or turn the head. -/
theorem triggerGameOver_fields (s : BState) :
    (triggerGameOver s).snake = s.snake ∧ (triggerGameOver s).direction = s.direction := by
  rw [triggerGameOver]
  cases hap : s.activePowerUp with
  | none => simp [deactivateCurrentPowerUp, hap]
  | some t => cases t <;> simp [deactivateCurrentPowerUp, hap]

/-- Deactivation does not move the body or turn the head. -/
theorem deactivate_snake_dir (s : BState) :
    (deactivateCurrentPowerUp s).snake = s.snake ∧
    (deactivateCurrentPowerUp s).direction = s.direction := by
  cases hap : s.activePowerUp with
  | none => simp [deactivateCurrentPowerUp, hap]
  | some t => cases t <;> simp [deactivateCurrentPowerUp, hap]

/-- Activation does not move the body or turn the head. -/
theorem activate_snake_dir (t : PUType) (now : ℚ) (s : BState) :
    (activatePowerUp t now s).snake = s.snake ∧
    (activatePowerUp t now s).direction = s.direction := by
  obtain ⟨h1, h2⟩ := deactivate_snake_dir s
  cases t <;> simp [activatePowerUp, h1, h2]

/-- The food phase does not move the body or turn the head. -/
theorem foodPhase_snake_dir (cs : ℕ → ℕ → ℕ × ℕ) (fuel : ℕ) (p : Vec) (s : BState) :
    (foodPhase cs fuel p s).2.snake = s.snake ∧
    (foodPhase cs fuel p s).2.direction = s.direction := by
  rw [foodPhase]
  cases hr : removeLastHit
      (fun f => decide (p.distSq f < (4 / 5 * s.currentSnakeSizeMultiplier) ^ 2))
      s.foods with
  | none => exact ⟨rfl, rfl⟩
  | some r => obtain ⟨e, foods1⟩ := r; simp

/-- The power-up phase does not move the body or turn the head. -/
theorem powerUpPhase_snake_dir (now : ℚ) (p : Vec) (s : BState) :
    (powerUpPhase now p s).snake = s.snake ∧
    (powerUpPhase now p s).direction = s.direction := by
  rw [powerUpPhase]
  cases hr : removeLastHit
      (fun pu => decide (p.distSq pu.1 < (4 / 5 * s.currentSnakeSizeMultiplier) ^ 2))
      s.powerUps with
  | none => exact ⟨rfl, rfl⟩
  | some r =>
    obtain ⟨pu, pus1⟩ := r
    obtain ⟨h1, h2⟩ := activate_snake_dir pu.2 now { s with powerUps := pus1 }
    simp [h1, h2]

/-- The shift phase does not turn the head. -/
theorem shiftPhase_dir (ate : Bool) (p : Vec) (s : BState) :
    (shiftPhase ate p s).direction = s.direction := by
  rw [shiftPhase]
  cases s.snake with
  | nil => rfl
  | cons head rest => cases ate <;> simp

/-- Without growth, the shifted body is the candidate head consed onto
the old body minus its tail. -/
theorem shiftPhase_plain (p : Vec) (s : BState) (head : Vec) (rest : List Vec)
    (hsn : s.snake = head :: rest) :
    (shiftPhase false p s).snake = p :: (head :: rest).dropLast := by
  simp only [shiftPhase, hsn, Bool.false_eq_true, if_false]

/-- A running, non-colliding tick is the three phases in order. -/
theorem moveSnake_run_eq (now : ℚ) (cs : ℕ → ℕ → ℕ × ℕ) (fuel : ℕ) (s : BState)
    (head : Vec) (rest : List Vec) (hsn : s.snake = head :: rest)
    (hrun : s.gameRunning = true) (hover : s.gameOver = false)
    (hself : selfHit s.currentSnakeSizeMultiplier
      (wrapPos (head.add (effDir s))) rest = false) :
    moveSnake now cs fuel s =
      shiftPhase
        (foodPhase cs fuel (wrapPos (head.add (effDir s)))
          { s with direction := effDir s, turnRequested := none }).1
        (wrapPos (head.add (effDir s)))
        (powerUpPhase now (wrapPos (head.add (effDir s)))
          (foodPhase cs fuel (wrapPos (head.add (effDir s)))
            { s with direction := effDir s, turnRequested := none }).2) := by
  simp only [moveSnake, hsn, hrun, hover, hself, Bool.not_true, Bool.false_or,
    Bool.false_eq_true, if_false]

end Snake3

/-- C10 amended: adjacency holds at reset, and is preserved by every
tick whose candidate head does not wrap: each pair of adjacent segments
stays exactly one grid step apart, including during growth ticks (the
appended tail segment sits exactly where the old tail was); the head
direction stays an axis unit vector.  (After a wrap the invariant is
broken; see the counterexample.) -/
theorem c10_adjacency_no_wrap :
    (∀ (cs : ℕ → ℕ → ℕ × ℕ) (fuel : ℕ) (s : Snake3.BState),
        Snake3.BodyChain (Snake3.resetGame cs fuel s).snake ∧
        (Snake3.resetGame cs fuel s).direction ∈ unitDirs) ∧
    (∀ (now : ℚ) (cs : ℕ → ℕ → ℕ × ℕ) (fuel : ℕ) (s : Snake3.BState),
        Snake3.BodyChain s.snake → s.direction ∈ unitDirs →
        (∀ (head : Vec) (rest : List Vec), s.snake = head :: rest →
          Snake3.wrapPos (head.add (Snake3.effDir s)) = head.add (Snake3.effDir s)) →
        Snake3.BodyChain (Snake3.moveSnake now cs fuel s).snake ∧
        (Snake3.moveSnake now cs fuel s).direction ∈ unitDirs) := by
  constructor
  · intro cs fuel s
    constructor
    · show Snake3.BodyChain Snake3.initialSnake
      rw [Snake3.BodyChain, Snake3.initialSnake]
      refine List.chain'_cons.mpr ⟨?_, List.chain'_cons.mpr ⟨?_, List.chain'_singleton _⟩⟩ <;>
        with_unfolding_all decide
    · show (⟨1, 0⟩ : Vec) ∈ unitDirs
      decide
  · intro now cs fuel s hchain hdir hnowrap
    by_cases hrunb : s.gameRunning = true
    · by_cases hoverb : s.gameOver = false
      · cases hsn : s.snake with
        | nil =>
          have hmv : Snake3.moveSnake now cs fuel s = s := by
            simp only [Snake3.moveSnake, hrunb, hoverb, hsn, Bool.not_true,
              Bool.false_or, Bool.false_eq_true, if_false]
          rw [hmv]
          exact ⟨hchain, hdir⟩
        | cons head rest =>
          have hnw := hnowrap head rest hsn
          have hdirE := Snake3.effDir_unit s hdir
          have hRph : Vec.distSq (Snake3.wrapPos (head.add (Snake3.effDir s))) head = 1 := by
            rw [hnw]
            exact Snake3.distSq_add_unit head (Snake3.effDir s) hdirE
          by_cases hself : Snake3.selfHit s.currentSnakeSizeMultiplier
              (Snake3.wrapPos (head.add (Snake3.effDir s))) rest = true
          · have hmv : Snake3.moveSnake now cs fuel s =
                Snake3.triggerGameOver
                  { s with direction := Snake3.effDir s, turnRequested := none } := by
              simp only [Snake3.moveSnake, hrunb, hoverb, hsn, hself, Bool.not_true,
                Bool.false_or, Bool.false_eq_true, if_false, if_true]
            obtain ⟨hsk, hdr⟩ := Snake3.triggerGameOver_fields
              { s with direction := Snake3.effDir s, turnRequested := none }
            rw [hmv]
            constructor
            · rw [hsk]; exact hchain
            · rw [hdr]; exact hdirE
          · have hselff : Snake3.selfHit s.currentSnakeSizeMultiplier
                (Snake3.wrapPos (head.add (Snake3.effDir s))) rest = false :=
              Bool.eq_false_iff.mpr hself
            rw [Snake3.moveSnake_run_eq now cs fuel s head rest hsn hrunb hoverb hselff]
            obtain ⟨hfp1, hfp2⟩ := Snake3.foodPhase_snake_dir cs fuel
              (Snake3.wrapPos (head.add (Snake3.effDir s)))
              { s with direction := Snake3.effDir s, turnRequested := none }
            obtain ⟨hpp1, hpp2⟩ := Snake3.powerUpPhase_snake_dir now
              (Snake3.wrapPos (head.add (Snake3.effDir s)))
              (Snake3.foodPhase cs fuel (Snake3.wrapPos (head.add (Snake3.effDir s)))
                { s with direction := Snake3.effDir s, turnRequested := none }).2
            have hsks : (Snake3.powerUpPhase now
                (Snake3.wrapPos (head.add (Snake3.effDir s)))
                (Snake3.foodPhase cs fuel (Snake3.wrapPos (head.add (Snake3.effDir s)))
                  { s with direction := Snake3.effDir s, turnRequested := none }).2).snake
                = head :: rest := by
              rw [hpp1, hfp1]
              exact hsn
            have hchain2 : Snake3.BodyChain (head :: rest) := by rw [hsn] at hchain; exact hchain
            constructor
            · cases hate : (Snake3.foodPhase cs fuel
                  (Snake3.wrapPos (head.add (Snake3.effDir s)))
                  { s with direction := Snake3.effDir s, turnRequested := none }).1 with
              | false =>
                rw [Snake3.shiftPhase_plain _ _ head rest hsks]
                cases rest with
                | nil => exact List.chain'_singleton _
                | cons r rs =>
                  rw [List.dropLast_cons₂]
                  rw [Snake3.BodyChain, List.chain'_cons]
                  refine ⟨hRph, ?_⟩
                  have : List.Chain' (fun p q => Vec.distSq p q = 1)
                      ((head :: r :: rs).dropLast) :=
                    List.Chain'.prefix hchain2
                      (by rw [List.dropLast_eq_take]; exact List.take_prefix _ _)
                  rw [List.dropLast_cons₂] at this
                  exact this
              | true =>
                rw [Snake3.shiftPhase_grow _ _ head rest hsks, hsks]
                rw [Snake3.BodyChain, List.chain'_cons]
                exact ⟨hRph, hchain2⟩
            · rw [Snake3.shiftPhase_dir, hpp2, hfp2]
              exact hdirE
      · have hover2 : s.gameOver = true := by
          revert hoverb; cases s.gameOver <;> simp
        have hmv : Snake3.moveSnake now cs fuel s = s := by
          simp only [Snake3.moveSnake, hover2, Bool.or_true, if_true]
        rw [hmv]
        exact ⟨hchain, hdir⟩
    · have hrun2 : s.gameRunning = false := by
        revert hrunb; cases s.gameRunning <;> simp
      have hmv : Snake3.moveSnake now cs fuel s = s := by
        simp only [Snake3.moveSnake, hrun2, Bool.not_false, Bool.true_or, if_true]
      rw [hmv]
      exact ⟨hchain, hdir⟩

/-- Closed witness for c10_adjacency_no_wrap: one tick of the base state
keeps all adjacent pairs one grid step apart and the direction an axis
unit. -/
theorem c10_adjacency_no_wrap_witness :
    Snake3.BodyChain (Snake3.moveSnake 0 Snake3.cs0 1 Snake3.pBase).snake ∧
    (Snake3.moveSnake 0 Snake3.cs0 1 Snake3.pBase).direction ∈ unitDirs := by
  refine c10_adjacency_no_wrap.2 0 Snake3.cs0 1 Snake3.pBase ?_ ?_ ?_
  · show Snake3.BodyChain Snake3.initialSnake
    rw [Snake3.BodyChain, Snake3.initialSnake]
    refine List.chain'_cons.mpr ⟨?_, List.chain'_cons.mpr ⟨?_, List.chain'_singleton _⟩⟩ <;>
      with_unfolding_all decide
  · decide
  · intro head rest hsn
    have hsn2 : (⟨2, 0⟩ : Vec) :: [⟨1, 0⟩, ⟨0, 0⟩] = head :: rest := hsn
    injection hsn2 with h1 h2
    subst h1
    with_unfolding_all decide

namespace Snake3

/-- The constant MAX_POWERUP_COUNT. -/
def MAX_POWERUP_COUNT : ℕ := 3

/-- The function spawnSinglePowerUp, part_000 line 253: up to 50 random
draws, accepting the first isPositionValid one with clearance
GRID_SIZE * 0.6 and appending it with its type; on failure only a
warning is logged. -/
def spawnSinglePowerUp (t : PUType) (c : ℕ → ℕ × ℕ) (s : BState) : BState :=
  match ((List.range 50).map (fun i => getRandomGridPosition (c i).1 (c i).2)).find?
      (fun p => isPositionValid s.snake s.foods s.powerUps s.sceneryObjects
        s.currentSnakeSizeMultiplier p (3 / 5)) with
  | some p => { s with powerUps := s.powerUps ++ [(p, t)] }
  | none => s

/-- The function managePowerUpSpawning, part_000 line 251: nothing
happens at the cap or when the spawn-chance roll fails (`doRoll` models
random() ≤ POWERUP_SPAWN_CHANCE, `t` the randomly chosen type). -/
def managePowerUpSpawning (doRoll : Bool) (t : PUType) (c : ℕ → ℕ × ℕ)
    (s : BState) : BState :=
  if MAX_POWERUP_COUNT ≤ s.powerUps.length || !doRoll then s
  else spawnSinglePowerUp t c s

/-- One animation frame of part_000 lines 319-323 restricted to its
simulation effects: a logic tick when the game runs and the accumulated
time is due, then expiry checking and the power-up spawn roll. -/
def frame (now : ℚ) (tickDue : Bool) (cs : ℕ → ℕ → ℕ × ℕ) (fuel : ℕ)
    (puRoll : Bool) (t : PUType) (puC : ℕ → ℕ × ℕ) (s : BState) : BState :=
  let s1 := if s.gameRunning && tickDue then moveSnake now cs fuel s else s
  if s1.gameRunning then
    managePowerUpSpawning puRoll t puC (checkPowerUpExpiry now s1)
  else s1

/-- The scenery configuration of the wrap counterexample run: the 48
objects createScenery builds, in a row far from the action. -/
def cexScenery : List Vec := (List.range 48).map (fun k => ⟨(k : ℚ) - 24, -40⟩)

/-- The page-load state of the wrap counterexample run (resetGame reads
only its sceneryObjects). -/
def cexInit : BState := { pBase with sceneryObjects := cexScenery, gameRunning := false }

/-- Food draws of the counterexample reset: call k draws (k, 10), a row
clear of the snake path, the other foods and the scenery. -/
def csR : ℕ → ℕ → ℕ × ℕ := fun k _ => (k + 49, 59)

/-- The counterexample state right after resetGame. -/
def cexReset : BState := resetGame csR 20 cexInit

/-- The counterexample run: start, then 48 frames with a due tick each,
no power-up roll succeeding.  Heading +x from (2,0), the head reaches
x = 49 after 47 ticks and the 48th tick wraps it to x = -49.5. -/
def cexRun : BState :=
  Nat.iterate (frame 0 true cs0 1 false PUType.shrink (fun _ => (0, 0))) 48
    (startGame cexReset)

end Snake3

set_option maxRecDepth 100000 in
/-- C10 counterexample: a state reached from reset by 48 ticks (the
48th crossing the +x edge) has its head at (-49.5, 0) while the second
segment sits at (49, 0): this adjacent pair is 98.5 grid steps apart,
not 1, and the tick applied no growth, so the claimed invariant fails
in a reachable state after a boundary wrap. -/
theorem c10_wrap_gap_cex :
    Snake3.cexRun.snake = [⟨-99 / 2, 0⟩, ⟨49, 0⟩, ⟨48, 0⟩] ∧
    Snake3.cexRun.snake.length = 3 ∧
    Vec.distSq ⟨-99 / 2, 0⟩ ⟨49, 0⟩ ≠ 1 := by
  refine ⟨?_, ?_, ?_⟩ <;> with_unfolding_all decide

/-- C4: every position the placement samplers return on their primary
path meets the full clearance contract: in part_000, spawnSingleFood
only returns positions at least clearance-plus-half-a-segment from
every snake segment, at least the clearance from every food and
power-up, at least clearance-plus-1.5 from every scenery object, and
inside the plane; in script.js, a non-degraded spawnFood result is at
least half a grid unit from every snake segment and inside the plane,
and whenever the primary loop fails the result is flagged degraded
(the console.warn path). -/
theorem c4_sampler_clearance :
    (∀ (snake foods : List Vec) (pus : List (Vec × Snake3.PUType)) (scenery : List Vec)
        (m : ℚ) (c : ℕ → ℕ × ℕ) (p : Vec),
        Snake3.spawnSingleFood snake foods pus scenery m c = some p →
        (∀ seg ∈ snake, ¬ seg.distSq p < (1 / 2 + 1 / 2 * m) ^ 2) ∧
        (∀ f ∈ foods, ¬ f.distSq p < ((1 : ℚ) / 2) ^ 2) ∧
        (∀ pu ∈ pus, ¬ pu.1.distSq p < ((1 : ℚ) / 2) ^ 2) ∧
        (∀ o ∈ scenery, ¬ p.distSq o < ((1 : ℚ) / 2 + 3 / 2) ^ 2) ∧
        ¬ Snake3.halfPlane ≤ p.x ∧ ¬ p.x < -Snake3.halfPlane ∧
        ¬ Snake3.halfPlane ≤ p.z ∧ ¬ p.z < -Snake3.halfPlane) ∧
    (∀ (snake : List Vec) (prim : ℕ → Vec) (draws : ℕ → ℕ × ℕ) (fuel : ℕ) (p : Vec),
        Script.spawnFood snake prim draws fuel = Script.SpawnResult.mk (some p) false →
        (∀ seg ∈ snake, ¬ seg.distSq p < ((1 : ℚ) / 2) ^ 2) ∧
        Script.outOfBounds p = false) ∧
    (∀ (snake : List Vec) (prim : ℕ → Vec) (draws : ℕ → ℕ × ℕ) (fuel : ℕ),
        ((List.range 50).map prim).find? (Script.validFoodPos snake) = none →
        (Script.spawnFood snake prim draws fuel).degraded = true) := by
  refine ⟨?_, ?_, ?_⟩
  · intro snake foods pus scenery m c p h
    have hp := List.find?_some h
    simp only [Snake3.isPositionValid, Bool.and_eq_true, List.all_eq_true,
      Bool.not_eq_true', decide_eq_false_iff_not, Bool.or_eq_false_iff] at hp
    obtain ⟨⟨⟨⟨h1, h2⟩, h3⟩, h4⟩, ⟨⟨h5a, h5b⟩, h5c⟩, h5d⟩ := hp
    exact ⟨h1, h2, h3, h4, h5a, h5b, h5c, h5d⟩
  · intro snake prim draws fuel p h
    rw [Script.spawnFood] at h
    cases hfind : ((List.range 50).map prim).find? (Script.validFoodPos snake) with
    | none =>
      rw [hfind] at h
      injection h with _ hdeg
      exact Bool.noConfusion hdeg
    | some q =>
      rw [hfind] at h
      injection h with hpos _
      injection hpos with hq
      subst hq
      have hv := List.find?_some hfind
      simp only [Script.validFoodPos, Bool.and_eq_true, List.all_eq_true,
        Bool.not_eq_true', decide_eq_false_iff_not] at hv
      exact ⟨hv.1, hv.2⟩
  · intro snake prim draws fuel hfind
    rw [Script.spawnFood, hfind]

/-- Closed witness for c4_sampler_clearance: a part_000 spawn from the
base scenario returns (11,20), which is inside the plane and clear of
the head; a script.js primary spawn returns its first candidate clear
of the snake and in bounds. -/
theorem c4_sampler_clearance_witness :
    Snake3.spawnSingleFood Snake3.initialSnake [] [] []
      Snake3.BASE_SNAKE_SIZE_MULTIPLIER (fun _ => (60, 69)) = some ⟨11, 20⟩ ∧
    ¬ Snake3.halfPlane ≤ (⟨11, 20⟩ : Vec).x ∧
    ¬ Vec.distSq ⟨2, 0⟩ ⟨11, 20⟩
      < (1 / 2 + 1 / 2 * Snake3.BASE_SNAKE_SIZE_MULTIPLIER) ^ 2 ∧
    Script.spawnFood [⟨0, 0⟩] (fun _ => ⟨5, 5⟩) (fun _ => (0, 0)) 0
      = Script.SpawnResult.mk (some ⟨5, 5⟩) false ∧
    Script.outOfBounds ⟨5, 5⟩ = false := by
  have hs : Snake3.spawnSingleFood Snake3.initialSnake [] [] []
      Snake3.BASE_SNAKE_SIZE_MULTIPLIER (fun _ => (60, 69)) = some ⟨11, 20⟩ := by
    with_unfolding_all decide
  have hs2 : Script.spawnFood [⟨0, 0⟩] (fun _ => ⟨5, 5⟩) (fun _ => (0, 0)) 0
      = Script.SpawnResult.mk (some ⟨5, 5⟩) false := by
    with_unfolding_all decide
  have h1 := c4_sampler_clearance.1 Snake3.initialSnake [] [] []
    Snake3.BASE_SNAKE_SIZE_MULTIPLIER (fun _ => (60, 69)) ⟨11, 20⟩ hs
  have h2 := c4_sampler_clearance.2.1 [⟨0, 0⟩] (fun _ => ⟨5, 5⟩) (fun _ => (0, 0)) 0
    ⟨5, 5⟩ hs2
  exact ⟨hs, h1.2.2.2.2.1,
    h1.1 ⟨2, 0⟩ (by rw [Snake3.initialSnake]; exact List.mem_cons_self _ _),
    hs2, h2.2⟩

namespace GameJs

/-! Embedding of the on-rails shooter, src/game.js, restricted to its
game state machine (claim C9).  Constants: BULLET_COOLDOWN = 150.
Entity meshes, bounding boxes and the per-frame update pipeline
(updatePlayer, updateBullets, updateEnemies, updateWorld,
checkCollisions) are only reachable while gameOver is false, so the
pipeline body is taken as a parameter of the event step; registry sizes
stand for the bullet and enemy lists, whose element data the state
machine never reads. -/

/-- The keys game.js keysPressed distinguishes for the state machine:
the spacebar (shoot) and everything else. -/
inductive GKey where
  | space
  | arrowLeft
  | arrowRight
  | arrowUp
  | arrowDown
  | other
deriving DecidableEq, Repr

/-- The game.js module state the state machine reads and writes. -/
structure GJState where
  score : ℕ
  bullets : ℕ
  enemies : ℕ
  playerX : ℚ
  playerY : ℚ
  lastShotTime : ℚ
  lastEnemySpawnTime : ℚ
  keysPressed : GKey → Bool
  gameOver : Bool
  gameRunning : Bool

/-- The function shoot, game.js lines 170-176: a bullet is created only
after the cooldown has elapsed. -/
def shoot (now : ℚ) (s : GJState) : GJState :=
  if 150 < now - s.lastShotTime then
    { s with lastShotTime := now, bullets := s.bullets + 1 }
  else s

/-- The function triggerGameOver, game.js lines 356-361. -/
def triggerGameOver (s : GJState) : GJState :=
  { s with gameOver := true, gameRunning := false }

/-- The function resetGame, game.js lines 363-401: score zeroed, all
bullets and enemies removed, player pose and timers reset, keys
cleared, overlays hidden, and then gameOver := false and
gameRunning := true: the machine starts Running immediately (there is
no separate Idle re-arm). -/
def resetGame (_s : GJState) : GJState :=
  { score := 0
    bullets := 0
    enemies := 0
    playerX := 0
    playerY := 0
    lastShotTime := 0
    lastEnemySpawnTime := 0
    keysPressed := fun _ => false
    gameOver := false
    gameRunning := true }

/-- The input and driver events of game.js: keydown (lines 133-141,
shooting on space while running), keyup (lines 142-144), the start and
restart button clicks (lines 403-408, both call resetGame), and an
animation frame (lines 411-432, whose update pipeline `upd` runs only
when gameOver is false). -/
inductive GEvent where
  | keydown (k : GKey) (now : ℚ)
  | keyup (k : GKey)
  | startClick
  | restartClick
  | tick
deriving DecidableEq, Repr

/-- One event step of game.js. -/
def step (upd : GJState → GJState) (s : GJState) (e : GEvent) : GJState :=
  match e with
  | GEvent.keydown k now =>
    let s1 := { s with keysPressed := fun k2 => if k2 == k then true else s.keysPressed k2 }
    if k == GKey.space && !s1.gameOver && s1.gameRunning then shoot now s1 else s1
  | GEvent.keyup k =>
    { s with keysPressed := fun k2 => if k2 == k then false else s.keysPressed k2 }
  | GEvent.startClick => resetGame s
  | GEvent.restartClick => resetGame s
  | GEvent.tick => if !s.gameOver then upd s else s

/-- A single non-reset event cannot leave GameOver. -/
theorem step_gameover (upd : GJState → GJState) (s : GJState) (e : GEvent)
    (hover : s.gameOver = true) (hrun : s.gameRunning = false)
    (hne : e ≠ GEvent.startClick ∧ e ≠ GEvent.restartClick) :
    (step upd s e).gameOver = true ∧ (step upd s e).gameRunning = false := by
  cases e with
  | keydown k now => simp [step, hover, hrun]
  | keyup k => exact ⟨hover, hrun⟩
  | startClick => exact absurd rfl hne.1
  | restartClick => exact absurd rfl hne.2
  | tick => simp [step, hover, hrun]

end GameJs

namespace Script

/-- The input and driver events of script.js: a keydown (carrying the
food position a restart would spawn) and a logic tick (carrying the
food position an eaten food would respawn as). -/
inductive SEvent where
  | key (k : Key) (nf : Vec)
  | tick (nf : Vec)
deriving DecidableEq, Repr

/-- One event step of script.js. -/
def stepEvent (s : GState) (e : SEvent) : GState :=
  match e with
  | SEvent.key k nf => handleKeyDown k nf s
  | SEvent.tick nf => moveSnake nf s

/-- Whether an event is a spacebar press (the only restart trigger). -/
def SEvent.isSpaceKey : SEvent → Bool
  | SEvent.key Key.space _ => true
  | _ => false

/-- A single non-space event cannot leave GameOver in script.js. -/
theorem stepEvent_gameover (s : GState) (e : SEvent)
    (hover : s.gameOver = true) (hrun : s.gameRunning = false)
    (hns : SEvent.isSpaceKey e = false) :
    (stepEvent s e).gameOver = true ∧ (stepEvent s e).gameRunning = false := by
  obtain ⟨sn, fo, di, nd, sc, gr, go⟩ := s
  simp only at hover hrun
  subst hover
  subst hrun
  cases e with
  | key k nf =>
    cases k <;> first
      | (constructor <;> (simp [stepEvent, handleKeyDown, apply_ite]; done))
      | (simp [SEvent.isSpaceKey] at hns)
  | tick nf => constructor <;> simp [stepEvent, moveSnake]

end Script

/-- A concrete post-crash state of the game.js shooter. -/
def GameJs.gOver : GameJs.GJState :=
  { score := 120
    bullets := 2
    enemies := 5
    playerX := 3
    playerY := 1
    lastShotTime := 1000
    lastEnemySpawnTime := 900
    keysPressed := fun _ => false
    gameOver := true
    gameRunning := false }

/-- C9 counterexample: game.js resetGame invoked from a GameOver state
leaves the machine RUNNING (gameRunning = true), not Idle, so reset()
does not lead to an Idle state awaiting a start signal in this
variant. -/
theorem c9_reset_to_idle_cex :
    GameJs.gOver.gameOver = true ∧
    (GameJs.resetGame GameJs.gOver).gameRunning = true ∧
    (GameJs.resetGame GameJs.gOver).gameOver = false :=
  ⟨rfl, rfl, rfl⟩

/-- C9 amended: script.js resetGame leads to Idle from any state, while
game.js resetGame transitions directly to Running (it doubles as the
start operation); in both variants a machine in GameOver can only reach
Running through the reset operation: without a spacebar press
(script.js) or a start/restart button click (game.js) the machine stays
in GameOver forever. -/
theorem c9_reset_semantics :
    (∀ (nf : Vec) (s : Script.GState),
        (Script.resetGame nf s).gameRunning = false ∧
        (Script.resetGame nf s).gameOver = false) ∧
    (∀ (s : GameJs.GJState),
        (GameJs.resetGame s).gameRunning = true ∧ (GameJs.resetGame s).gameOver = false) ∧
    (∀ (s : Script.GState) (evs : List Script.SEvent),
        s.gameOver = true → s.gameRunning = false →
        (∀ e ∈ evs, Script.SEvent.isSpaceKey e = false) →
        (evs.foldl Script.stepEvent s).gameOver = true ∧
        (evs.foldl Script.stepEvent s).gameRunning = false) ∧
    (∀ (upd : GameJs.GJState → GameJs.GJState) (s : GameJs.GJState)
        (evs : List GameJs.GEvent),
        s.gameOver = true → s.gameRunning = false →
        (∀ e ∈ evs, e ≠ GameJs.GEvent.startClick ∧ e ≠ GameJs.GEvent.restartClick) →
        (evs.foldl (GameJs.step upd) s).gameOver = true ∧
        (evs.foldl (GameJs.step upd) s).gameRunning = false) := by
  refine ⟨fun nf s => ⟨rfl, rfl⟩, fun s => ⟨rfl, rfl⟩, ?_, ?_⟩
  · intro s evs
    induction evs generalizing s with
    | nil => intro hover hrun _; exact ⟨hover, hrun⟩
    | cons e rest ih =>
      intro hover hrun hns
      rw [List.foldl_cons]
      obtain ⟨h1, h2⟩ := Script.stepEvent_gameover s e hover hrun
        (hns e (List.mem_cons_self e rest))
      exact ih (Script.stepEvent s e) h1 h2
        (fun e2 he2 => hns e2 (List.mem_cons_of_mem e he2))
  · intro upd s evs
    induction evs generalizing s with
    | nil => intro hover hrun _; exact ⟨hover, hrun⟩
    | cons e rest ih =>
      intro hover hrun hne
      rw [List.foldl_cons]
      obtain ⟨h1, h2⟩ := GameJs.step_gameover upd s e hover hrun
        (hne e (List.mem_cons_self e rest))
      exact ih (GameJs.step upd s e) h1 h2
        (fun e2 he2 => hne e2 (List.mem_cons_of_mem e he2))

/-- A concrete post-crash script.js state. -/
def Script.sOver : Script.GState :=
  ⟨[⟨0, 0⟩, ⟨1, 0⟩], ⟨10, 10⟩, ⟨1, 0⟩, ⟨1, 0⟩, 7, false, true⟩

/-- Closed witness for c9_reset_semantics: a reset lands script.js in
Idle, game.js in Running, and a GameOver script.js state fed only
arrow keys and ticks stays GameOver. -/
theorem c9_reset_semantics_witness :
    (Script.resetGame ⟨9, 9⟩ Script.sOver).gameRunning = false ∧
    (GameJs.resetGame GameJs.gOver).gameRunning = true ∧
    ([Script.SEvent.key Script.Key.up ⟨9, 9⟩, Script.SEvent.tick ⟨9, 9⟩].foldl
        Script.stepEvent Script.sOver).gameOver = true := by
  refine ⟨(c9_reset_semantics.1 ⟨9, 9⟩ Script.sOver).1,
    (c9_reset_semantics.2.1 GameJs.gOver).1, ?_⟩
  exact (c9_reset_semantics.2.2.1 Script.sOver
    [Script.SEvent.key Script.Key.up ⟨9, 9⟩, Script.SEvent.tick ⟨9, 9⟩]
    rfl rfl (by intro e he; fin_cases he <;> rfl)).1
